import Mathlib

/-!
Verification of the CareerPilot client/backend logic: dashboard metric
computation (duration parsing, profile strength, trend-chart synthesis),
roadmap reconciliation into recommended actions, the smart-focus-area
resolver, and the persistence layer (mock localStorage backend and the
Express/MySQL profile-update route).

Each TypeScript/JavaScript function under scrutiny is shallowly embedded as an
executable Lean definition; JavaScript-specific semantics (truthiness, regex
first-match search, parseFloat prefix parsing, object spread) are modelled
explicitly by small helper functions.
-/

namespace CareerPilot

/-! ## JavaScript string primitives -/

/-- Whitespace characters recognised by the JS `\s` regex class and by
`String.prototype.trim` / `parseFloat`, restricted to the ASCII range
(cached durations and titles in this app are ASCII). -/
def jsWhitespace (c : Char) : Bool :=
  c = ' ' || c = '\t' || c = '\n' || c = '\r' || c = '\x0b' || c = '\x0c'

/-- JS `String.prototype.toLowerCase` on a character (ASCII fragment). -/
def jsLowerChar (c : Char) : Char :=
  if 'A' ≤ c ∧ c ≤ 'Z' then Char.ofNat (c.toNat + 32) else c

/-- JS `String.prototype.trim`: strip leading and trailing whitespace. -/
def jsTrim (cs : List Char) : List Char :=
  ((cs.dropWhile jsWhitespace).reverse.dropWhile jsWhitespace).reverse

/-- Numeric value of a digit run (most significant first). -/
def digitsVal (ds : List Char) : ℕ :=
  ds.foldl (fun acc c => 10 * acc + (c.toNat - '0'.toNat)) 0

/-- Value of the decimal literal `ds.fs` (integer digits `ds`, fraction
digits `fs`) as a rational. -/
def decimalVal (ds fs : List Char) : ℚ :=
  (digitsVal ds : ℚ) + (digitsVal fs : ℚ) / (10 : ℚ) ^ fs.length

/-! ## The regex searches of `parseDuration`

`d.match(/(\d+(\.\d+)?)\s*h/)` (and the same with `m`) returns the first
match, scanning start positions left to right.  For this particular pattern
greedy matching never needs to backtrack: shortening the integer digit run,
the fraction digit run or the whitespace run always leaves the next literal
facing a digit, a dot or a space, none of which can be the final `h`/`m`
character.  The capture of group 1 is therefore the maximal
`digits(.digits)?` run at the first start position from which the whole
pattern matches. -/

/-- Try to match `(\d+(\.\d+)?)\s*u` at the start of `cs`; on success return
the numeric value of capture group 1 (the code applies `parseFloat` to the
capture, which on a `digits(.digits)?` string is exact). -/
def matchNumUnitAt (unit : Char) (cs : List Char) : Option ℚ :=
  let ds := cs.takeWhile Char.isDigit
  if ds.isEmpty then none
  else
    match cs.drop ds.length with
    | '.' :: r2 =>
        let fs := r2.takeWhile Char.isDigit
        if fs.isEmpty then none
        else
          match (r2.drop fs.length).dropWhile jsWhitespace with
          | c :: _ => if c = unit then some (decimalVal ds fs) else none
          | [] => none
    | rest =>
        match rest.dropWhile jsWhitespace with
        | c :: _ => if c = unit then some (decimalVal ds []) else none
        | [] => none

/-- First match of `(\d+(\.\d+)?)\s*u` anywhere in `cs` (JS `String.match`
without the global flag). -/
def findNumUnit (unit : Char) : List Char → Option ℚ
  | [] => none
  | c :: cs =>
    match matchNumUnitAt unit (c :: cs) with
    | some v => some v
    | none => findNumUnit unit cs

/-! ## `parseFloat` -/

/-- JS `parseFloat`: after skipping leading whitespace and an optional sign,
read the longest prefix of the form `digits (. digits?)? (e sign? digits)?`
(at least one digit before the exponent); `none` models `NaN`.  The
`Infinity` literal is unreachable here because `parseDuration` lower-cases
its input first, and `parseFloat` is case-sensitive on `Infinity`. -/
def jsParseFloat (cs : List Char) : Option ℚ :=
  let cs := cs.dropWhile jsWhitespace
  let (sgn, cs) : ℚ × List Char :=
    match cs with
    | '-' :: r => (-1, r)
    | '+' :: r => (1, r)
    | r => (1, r)
  let ds := cs.takeWhile Char.isDigit
  let rest := cs.drop ds.length
  let (fs, rest) : List Char × List Char :=
    match rest with
    | '.' :: r2 => (r2.takeWhile Char.isDigit, r2.drop (r2.takeWhile Char.isDigit).length)
    | r => ([], r)
  if ds.isEmpty ∧ fs.isEmpty then none
  else
    let base := decimalVal ds fs
    let expo : ℤ :=
      match rest with
      | 'e' :: r3 | 'E' :: r3 =>
        let (esgn, r4) : ℤ × List Char :=
          match r3 with
          | '-' :: r => (-1, r)
          | '+' :: r => (1, r)
          | r => (1, r)
        let es := r4.takeWhile Char.isDigit
        if es.isEmpty then 0 else esgn * (digitsVal es : ℤ)
      | _ => 0
    some (sgn * base * (10 : ℚ) ^ expo)

/-! ## `parseDuration` (Dashboard page helper) -/

/-- The Dashboard duration parser, embedded line by line:

    const parseDuration = (duration) => {
      if (!duration) return 0;
      const d = duration.toLowerCase().trim();
      let hours = 0;
      const hourMatch = d.match(/(\d+(\.\d+)?)\s*h/);
      const minMatch = d.match(/(\d+(\.\d+)?)\s*m/);
      if (hourMatch) hours += parseFloat(hourMatch[1]);
      if (minMatch) hours += parseFloat(minMatch[1]) / 60;
      if (hours === 0 && !isNaN(parseFloat(d))) hours = parseFloat(d);
      if (hours === 0) hours = 1;
      return hours;
    };

The only falsy string is the empty string, so `!duration` is `duration = ""`. -/
def parseDuration (duration : String) : ℚ :=
  if duration = "" then 0
  else
    let d := jsTrim (duration.data.map jsLowerChar)
    let hourMatch := findNumUnit 'h' d
    let minMatch := findNumUnit 'm' d
    let hours : ℚ :=
      (match hourMatch with | some v => v | none => 0)
      + (match minMatch with | some v => v / 60 | none => 0)
    let hours := if hours = 0 then (match jsParseFloat d with | some v => v | none => hours) else hours
    if hours = 0 then 1 else hours

/-- Reference parser following the spec wording of the amended claim C1:
search for a number followed by an `h` token (hours) and a number followed
by an `m` token (minutes, divided by 60) and sum them; if the sum is zero
and the lower-cased, trimmed string has a parseable leading number, that
number counts as hours; if the result is still zero, fall back to 1 hour;
the empty string yields 0. -/
def specParseDuration (s : String) : ℚ :=
  if s = "" then 0
  else
    let d := jsTrim (s.data.map jsLowerChar)
    let hoursPart : ℚ := (findNumUnit 'h' d).getD 0
    let minutesPart : ℚ := ((findNumUnit 'm' d).getD 0) / 60
    let total := hoursPart + minutesPart
    let total := if total = 0 then (jsParseFloat d).getD total else total
    if total = 0 then 1 else total

/-! ## Task status toggle (`TaskContext.toggleTaskStatus`) -/

inductive TaskStatus where
  | Todo
  | InProgress
  | Done
deriving DecidableEq, Repr

inductive TaskType where
  | Learning
  | Practice
  | Building
  | Reading
deriving DecidableEq, Repr

inductive Difficulty where
  | Easy
  | Medium
  | Hard
deriving DecidableEq, Repr

/-- Structure `Task` from `types.ts`. -/
structure Task where
  id : String
  title : String
  type : TaskType
  duration : String
  status : TaskStatus
  difficulty : Difficulty
  description : String
deriving DecidableEq, Repr

/-- The optimistic update inside `toggleTaskStatus`:

    tasks.map(t => t.id === taskId
      ? { ...t, status: (t.status === 'Done' ? 'Todo' : 'Done') } : t)
-/
def toggleTaskStatus (tasks : List Task) (taskId : String) : List Task :=
  tasks.map fun t =>
    if t.id = taskId then
      { t with status := if t.status = TaskStatus.Done then TaskStatus.Todo else TaskStatus.Done }
    else t

/-! ## Roadmap reconciliation (`GapAnalysis.fetchData`, steps 3 and after)

The raw phase/item records tolerate malformed upstream data: a phase whose
`items` field is absent is `items = none`; an item without a `subtitle` is
`subtitle = none`.  JavaScript exceptions raised while processing (reading
`forEach` of `undefined`) are modelled with `Except`. -/

inductive RStatus where
  | Completed
  | InProgress
  | Locked
deriving DecidableEq, Repr

/-- Structure `RoadmapItem` from `types.ts` (`subtitle` optional; `progress` and
`resources` are never read by the reconciliation and are omitted). -/
structure RoadmapItemR where
  title : String
  status : RStatus
  subtitle : Option String
deriving DecidableEq, Repr

/-- Structure `RoadmapPhase` from `types.ts`, with `items` optional so that malformed
upstream data (missing `items`) is representable. -/
structure RoadmapPhaseR where
  id : String
  title : String
  status : RStatus
  duration : String
  items : Option (List RoadmapItemR)
deriving DecidableEq, Repr

/-- One element of the intermediate `allItems` array:
`{ item, phaseTitle, phaseDuration }`. -/
structure FlatEntry where
  item : RoadmapItemR
  phaseTitle : String
  phaseDuration : String
deriving DecidableEq, Repr

/-- Structure `ActionItem` as produced on the analysis page. -/
structure ActionItem where
  id : ℕ
  title : String
  duration : String
  tag : String
  type : String
deriving DecidableEq, Repr

/-- Whether `needle` starts `hay` (character-wise). -/
def startsWithChars : List Char → List Char → Bool
  | [], _ => true
  | _ :: _, [] => false
  | a :: as, b :: bs => a = b && startsWithChars as bs

/-- JS `String.prototype.includes` (substring containment). -/
def containsChars (hay needle : List Char) : Bool :=
  match hay with
  | [] => needle.isEmpty
  | _ :: t => startsWithChars needle hay || containsChars t needle

/-- Substring test on `String`s, lower-casing the haystack first, as in
`entry.item.title.toLowerCase().includes(...)`. -/
def lowerIncludes (hay needle : String) : Bool :=
  containsChars (hay.data.map jsLowerChar) needle.data

/-- JS `a || b` for an optional string `a`: `undefined` and the empty string
are falsy. -/
def jsOrString (a : Option String) (b : String) : String :=
  match a with
  | some s => if s = "" then b else s
  | none => b

/-- The first loop of the reconciliation:

    roadmapResult.forEach(phase => {
      if (phase.status === 'In Progress' || phase.status === 'Locked'
          || phase.status === 'Completed') {
        phase.items.forEach(item => {
          if (item.status !== 'Completed') {
            allItems.push({ item, phaseTitle: phase.title,
                            phaseDuration: phase.duration });
          }
        });
      }
    });

Reading `phase.items.forEach` throws a `TypeError` when `items` is absent. -/
def collectActiveItems : List RoadmapPhaseR → Except String (List FlatEntry)
  | [] => .ok []
  | p :: ps =>
    if p.status = RStatus.InProgress ∨ p.status = RStatus.Locked ∨ p.status = RStatus.Completed then
      match p.items with
      | none => .error "TypeError"
      | some its => do
          let rest ← collectActiveItems ps
          .ok (((its.filter (fun it => it.status ≠ RStatus.Completed)).map
                  (fun it => FlatEntry.mk it p.title p.duration)) ++ rest)
    else collectActiveItems ps

/-- The `type` classification of step 4: title contains `project`/`build` →
`project`; else `mentor`/`review`/`interview` → `mentor`; else `course`. -/
def classifyActionType (title : String) : String :=
  if lowerIncludes title "project" || lowerIncludes title "build" then "project"
  else if lowerIncludes title "mentor" || lowerIncludes title "review"
      || lowerIncludes title "interview" then "mentor"
  else "course"

/-- Build one `ActionItem` from a flat entry and its index (`topItems.map`). -/
def mkActionItem (idx : ℕ) (entry : FlatEntry) : ActionItem :=
  { id := idx
    title := entry.item.title
    duration := jsOrString entry.item.subtitle entry.phaseDuration
    tag := if idx = 0 then "High Impact" else ""
    type := classifyActionType entry.item.title }

/-- The fallback pushed when `actions` is still empty:
`{ id: 1, title: Start Foundation Phase, duration: 4 Weeks,
   tag: High Impact, type: course }`. -/
def foundationFallback : ActionItem :=
  { id := 1, title := "Start Foundation Phase", duration := "4 Weeks"
    tag := "High Impact", type := "course" }

/-- The recommended-actions computation of `fetchData` (the pure part after
the two AI calls): collect non-completed items of all phases; if none and the
roadmap is non-empty, take every item of the first phase; keep the first 3,
build action records, and push the foundation fallback if the list is still
empty.  A `TypeError` (absent `items`) propagates as `.error`. -/
def fetchDataRecommendedActions (roadmapResult : List RoadmapPhaseR) :
    Except String (List ActionItem) := do
  let allItems ← collectActiveItems roadmapResult
  let allItems ←
    if allItems.isEmpty ∧ roadmapResult ≠ [] then
      match roadmapResult with
      | [] => .ok allItems
      | p0 :: _ =>
        match p0.items with
        | none => .error "TypeError"
        | some its => .ok (its.map (fun it => FlatEntry.mk it p0.title p0.duration))
    else .ok allItems
  let topItems := allItems.take 3
  let actions := topItems.enum.map (fun e => mkActionItem e.1 e.2)
  let actions := if actions.isEmpty then actions ++ [foundationFallback] else actions
  .ok actions

/-- Step 1 of the reference algorithm (and the successful outcome of
`collectActiveItems`): every item whose status is not Completed, in phase
order then item order, tagged with its phase title and duration; a phase
without `items` contributes nothing here. -/
def collectedEntries (roadmap : List RoadmapPhaseR) : List FlatEntry :=
  roadmap.flatMap (fun p =>
    ((p.items.getD []).filter (fun it => it.status ≠ RStatus.Completed)).map
      (fun it => FlatEntry.mk it p.title p.duration))

/-- All items of the first phase, used by the everything-completed
fallback. -/
def firstPhaseEntries (p0 : RoadmapPhaseR) : List FlatEntry :=
  (p0.items.getD []).map (fun it => FlatEntry.mk it p0.title p0.duration)

/-- The algorithm exactly as the claim C3 words it: collect every
non-Completed item in phase order then item order; if that collection is
empty and at least one phase exists, collect every item of the first phase
instead; keep the first 3 entries, tagging entry 0 High Impact; and when the
roadmap has zero phases the output is exactly the single fallback action.
Malformed phases are outside the claims domain, so `items` is read with
default `[]`. -/
def claimRecommendedActions (roadmap : List RoadmapPhaseR) : List ActionItem :=
  match roadmap with
  | [] => [foundationFallback]
  | p0 :: _ =>
    let collected := collectedEntries roadmap
    let collected := if collected.isEmpty then firstPhaseEntries p0 else collected
    (collected.take 3).enum.map (fun e => mkActionItem e.1 e.2)

/-- The amended reference algorithm (spec section 4.2 step 7): identical to
`claimRecommendedActions` except that the single fallback action is produced
whenever the final list is empty — zero phases, or a first phase without
items after an all-completed walk — not only for zero phases. -/
def specRecommendedActions (roadmap : List RoadmapPhaseR) : List ActionItem :=
  let collected := collectedEntries roadmap
  let collected :=
    if collected.isEmpty then
      match roadmap with
      | [] => []
      | p0 :: _ => firstPhaseEntries p0
    else collected
  let actions := (collected.take 3).enum.map (fun e => mkActionItem e.1 e.2)
  if actions.isEmpty then [foundationFallback] else actions

/-! ## Profile strength (`Dashboard.calculateProfileStrength`) -/

/-- Structure `Skill` from `types.ts` (fields the verified code paths read). -/
structure Skill where
  name : String
  category : String
  level : String
  verified : Option Bool
deriving DecidableEq, Repr

/-- Structure `WorkExperience` from `types.ts` (fields used by the backend insert). -/
structure WorkExperience where
  id : String
  company : String
  role : String
  startDate : String
  endDate : String
  description : String
  type : String
  skillsUsed : List String
deriving DecidableEq, Repr

/-- Structure `Education` from `types.ts`. -/
structure EducationEntry where
  id : String
  institution : String
  degree : String
  year : String
deriving DecidableEq, Repr

/-- Structure `Certification` from `types.ts` (fields used by the backend insert). -/
structure Certification where
  id : String
  name : String
  issuer : String
  date : String
deriving DecidableEq, Repr

/-- Structure `Project` from `types.ts` (fields used by the backend insert; `image`
optional). -/
structure Project where
  id : String
  name : String
  type : String
  description : String
  techStack : List String
  image : Option String
deriving DecidableEq, Repr

/-- Structure `UserProfile` from `types.ts`, restricted to the fields the verified
computations read. -/
structure UserProfile where
  name : String
  role : String
  avatarUrl : String
  bio : String
  location : String
  targetRole : String
  skills : List Skill
  experience : List WorkExperience
  education : List EducationEntry
  certifications : List Certification
  projects : List Project
deriving DecidableEq, Repr

/-- The Dashboard helper, embedded clause by clause:

    let score = 0;
    ['name','role','location','bio','targetRole'].forEach(field => {
      const val = user[field];
      if (typeof val === 'string' && val.length > 2) score += 10; });
    if (user.avatarUrl && user.avatarUrl.length > 50) score += 10;
    if (user.skills?.length >= 3) score += 15;
    else if (user.skills?.length > 0) score += 5;
    if (user.experience?.length >= 1) score += 15;
    if (user.education?.length >= 1) score += 5;
    if (user.projects?.length >= 1) score += 5;
    return Math.min(100, score);

All five identity fields are strings in `types.ts`, so the `typeof` guard is
always satisfied; `user.avatarUrl &&` is the JS truthiness test, false
exactly on the empty string. -/
def calculateProfileStrength (user : UserProfile) : ℕ :=
  let score :=
    (if user.name.length > 2 then 10 else 0)
    + (if user.role.length > 2 then 10 else 0)
    + (if user.location.length > 2 then 10 else 0)
    + (if user.bio.length > 2 then 10 else 0)
    + (if user.targetRole.length > 2 then 10 else 0)
    + (if user.avatarUrl ≠ "" ∧ user.avatarUrl.length > 50 then 10 else 0)
    + (if user.skills.length ≥ 3 then 15 else if user.skills.length > 0 then 5 else 0)
    + (if user.experience.length ≥ 1 then 15 else 0)
    + (if user.education.length ≥ 1 then 5 else 0)
    + (if user.projects.length ≥ 1 then 5 else 0)
  min 100 score

/-- The fixed-weight sum exactly as claim C5 words it: 10 per populated
identity field (string length over 2), 10 for an avatar string longer than
50 characters, 15 / 5 / 0 for at least 3 / 1 to 2 / 0 skills, 15 for
experience, 5 for education, 5 for projects, clamped to at most 100. -/
def specProfileStrength (user : UserProfile) : ℕ :=
  let identityPoints :=
    10 * ([user.name, user.role, user.location, user.bio, user.targetRole].filter
            (fun s => s.length > 2)).length
  let avatarPoints := if user.avatarUrl.length > 50 then 10 else 0
  let skillPoints :=
    if user.skills.length ≥ 3 then 15
    else if 1 ≤ user.skills.length ∧ user.skills.length ≤ 2 then 5
    else 0
  let experiencePoints := if user.experience.length ≥ 1 then 15 else 0
  let educationPoints := if user.education.length ≥ 1 then 5 else 0
  let projectPoints := if user.projects.length ≥ 1 then 5 else 0
  min 100 (identityPoints + avatarPoints + skillPoints + experiencePoints
    + educationPoints + projectPoints)

/-- A profile with every field empty and no avatar. -/
def emptyProfile : UserProfile :=
  { name := "", role := "", avatarUrl := "", bio := "", location := ""
    targetRole := "", skills := [], experience := [], education := []
    certifications := [], projects := [] }

/-- A fully populated profile: all identity fields longer than 2, an avatar
string longer than 50 characters, 3 skills, and one entry in each of
experience, education and projects. -/
def fullProfile : UserProfile :=
  { name := "Alex Mercer"
    role := "Senior Product Designer"
    avatarUrl := "data:image/png;base64,iVBORw0KGgoAAAANSUhEUgAAAAEAAAABCAYAAAA"
    bio := "Passionate designer with seven years of experience."
    location := "San Francisco, CA"
    targetRole := "Staff Product Designer"
    skills := [Skill.mk "UI Design" "Domain" "Expert" (some true),
               Skill.mk "Figma" "Tools" "Expert" (some true),
               Skill.mk "React" "Technical" "Intermediate" (some false)]
    experience := [WorkExperience.mk "1" "TechFlow Inc." "Senior Product Designer"
                    "2021" "Present" "Led the platform redesign." "Full-time" ["Figma"]]
    education := [EducationEntry.mk "1" "California College of the Arts"
                    "BA Interaction Design" "2014 - 2018"]
    certifications := [Certification.mk "1" "Google UX Design" "Google" "Jan 2023"]
    projects := [Project.mk "1" "FinTech Dashboard" "Professional"
                    "Financial analytics tool." ["Figma", "React"] none] }

/-! ## Trend chart synthesis (`Dashboard.generateTrendChart`)

The loop is embedded with the computed month difference `monthsDiff` (a
function of the parsed join date and the current date) and the random source
`jitter` (the stream of `Math.random() * 10 - 5` draws, indexed by loop
iteration) as explicit parameters; only the numeric `score` of each chart
point is modelled (`name` is locale-dependent month formatting, never
constrained by the spec). -/

/-- JS `Math.round`: round half toward positive infinity. -/
def jsRound (q : ℚ) : ℤ := ⌊q + 1 / 2⌋

/-- The point-generation loop:

    const pointsToGenerate = Math.max(3, Math.min(12, monthsDiff + 1));
    for (let i = 0; i < pointsToGenerate; i++) {
      const progress = i / (pointsToGenerate - 1);
      const startScore = 10;
      let calculated = startScore + ((currentScore - startScore) * progress);
      if (i < pointsToGenerate - 1 && i > 0) calculated += (Math.random() * 10 - 5);
      data.push({ ..., score: Math.max(0, Math.round(calculated)) });
    }
-/
def generateTrendChart (monthsDiff : ℤ) (currentScore : ℚ) (jitter : ℕ → ℚ) :
    List ℤ :=
  let pointsToGenerate : ℤ := max 3 (min 12 (monthsDiff + 1))
  let n : ℕ := pointsToGenerate.toNat
  (List.range n).map (fun (i : ℕ) =>
    let progress : ℚ := (i : ℚ) / ((n : ℚ) - 1)
    let startScore : ℚ := 10
    let calculated := startScore + (currentScore - startScore) * progress
    let calculated := if i < n - 1 ∧ 0 < i then calculated + jitter i else calculated
    max 0 (jsRound calculated))

/-! ## Smart focus area (`Tasks.getSmartFocusArea`)

A `localStorage` slot either holds nothing, holds a string that fails
`JSON.parse` (or parses to a shape whose traversal throws, caught by the
surrounding `try`), or holds a value that parses to usable data. -/

inductive CacheEntry (α : Type) where
  | absent
  | unparseable
  | parsed (value : α)
deriving DecidableEq, Repr

/-- A phase of the cached roadmap JSON as read by the resolver: the `status`
field of raw JSON data is an arbitrary string compared against the literal
`In Progress`. -/
structure CachedPhase where
  title : String
  status : String
deriving DecidableEq, Repr

/-- A critical gap of the cached analysis JSON (only `name` is read). -/
structure CachedGap where
  name : String
deriving DecidableEq, Repr

/-- The cached gap analysis (only `criticalGaps` is read; an absent or
non-array field behaves as the empty list). -/
structure CachedAnalysis where
  criticalGaps : List CachedGap
deriving DecidableEq, Repr

/-- Rules 2 and 3 of the resolver: the critical-gap lookup and the fixed
fallback. -/
def focusFromAnalysis (analysisCache : CacheEntry CachedAnalysis) : String :=
  match analysisCache with
  | .parsed analysis =>
    match analysis.criticalGaps with
    | gap :: _ => "Closing Skill Gap: " ++ gap.name
    | [] => "Core Competencies & Growth"
  | _ => "Core Competencies & Growth"

/-- Function `getSmartFocusArea`, embedded over the two cache slots:

    const cachedRoadmap = localStorage.getItem(roadmapKey);
    if (cachedRoadmap) { try {
        const roadmap = JSON.parse(cachedRoadmap);
        const activePhase = roadmap.find(p => p.status === 'In Progress');
        if (activePhase) return activePhase.title;
    } catch (e) { ... } }
    const cachedAnalysis = localStorage.getItem(analysisKey);
    if (cachedAnalysis) { try {
        const analysis = JSON.parse(cachedAnalysis);
        if (analysis.criticalGaps && analysis.criticalGaps.length > 0)
            return "Closing Skill Gap: " + analysis.criticalGaps[0].name;
    } catch (e) { ... } }
    return "Core Competencies & Growth";
-/
def getSmartFocusArea (roadmapCache : CacheEntry (List CachedPhase))
    (analysisCache : CacheEntry CachedAnalysis) : String :=
  match roadmapCache with
  | .parsed roadmap =>
    match roadmap.find? (fun p => p.status = "In Progress") with
    | some activePhase => activePhase.title
    | none => focusFromAnalysis analysisCache
  | _ => focusFromAnalysis analysisCache

/-- The priority chain exactly as the claim words it: the title of the first
phase with status In Progress of a parsed cached roadmap; else the
Closing Skill Gap string for the first critical gap of a parsed cached
analysis; else the fixed fallback.  An absent or unparseable cache entry is
a cache miss. -/
def specFocusArea (roadmapCache : CacheEntry (List CachedPhase))
    (analysisCache : CacheEntry CachedAnalysis) : String :=
  let analysisFocus :=
    match analysisCache with
    | .parsed analysis =>
      match analysis.criticalGaps with
      | gap :: _ => "Closing Skill Gap: " ++ gap.name
      | [] => "Core Competencies & Growth"
    | _ => "Core Competencies & Growth"
  match roadmapCache with
  | .parsed roadmap =>
    match (roadmap.filter (fun p => p.status = "In Progress")).head? with
    | some activePhase => activePhase.title
    | none => analysisFocus
  | _ => analysisFocus

/-! ## Express backend: `PUT /api/user/:email` (server.js)

The users table row together with its related rows (skills, experience,
projects, education, certifications all reference the user and are read and
rewritten only as a block keyed by the user). -/

/-- A row of the `skills` table (insert writes name, category, level,
`s.verified || false`). -/
structure SkillRow where
  name : String
  category : String
  level : String
  verified : Bool
deriving DecidableEq, Repr

/-- A row of the `experience` table (`skills_used` stores the
comma-joined list). -/
structure ExperienceRow where
  company : String
  role : String
  start_date : String
  end_date : String
  description : String
  type : String
  skills_used : String
deriving DecidableEq, Repr

/-- A row of the `projects` table (`tech_stack` comma-joined,
`p.image || ` empty string). -/
structure ProjectRow where
  name : String
  type : String
  description : String
  tech_stack : String
  image : String
deriving DecidableEq, Repr

/-- A row of the `education` table. -/
structure EducationRow where
  institution : String
  degree : String
  year : String
deriving DecidableEq, Repr

/-- A row of the `certifications` table. -/
structure CertificationRow where
  name : String
  issuer : String
  date : String
deriving DecidableEq, Repr

/-- A user of the relational store: the `users` row plus the related rows
of the five sub-collection tables. -/
structure BackendUser where
  email : String
  password : String
  name : String
  role : String
  bio : String
  location : String
  target_role : String
  avatar_url : String
  open_to_opportunities : Bool
  profile_strength : ℤ
  skills : List SkillRow
  experience : List ExperienceRow
  projects : List ProjectRow
  education : List EducationRow
  certifications : List CertificationRow
deriving DecidableEq, Repr

/-- The request body of the PUT route: a partial profile; `none` is an
absent field. -/
structure ProfileUpdates where
  name : Option String
  role : Option String
  bio : Option String
  location : Option String
  targetRole : Option String
  avatarUrl : Option String
  openToOpportunities : Option Bool
  profileStrength : Option ℤ
  skills : Option (List Skill)
  experience : Option (List WorkExperience)
  projects : Option (List Project)
  education : Option (List EducationEntry)
  certifications : Option (List Certification)
deriving DecidableEq, Repr

/-- A request body with no fields at all. -/
def ProfileUpdates.empty : ProfileUpdates :=
  { name := none, role := none, bio := none, location := none
    targetRole := none, avatarUrl := none, openToOpportunities := none
    profileStrength := none, skills := none, experience := none
    projects := none, education := none, certifications := none }

/-- The `INSERT INTO skills ...` row built from a submitted skill. -/
def skillRow (s : Skill) : SkillRow :=
  { name := s.name, category := s.category, level := s.level
    verified := s.verified.getD false }

/-- The `INSERT INTO experience ...` row built from a submitted entry. -/
def experienceRow (e : WorkExperience) : ExperienceRow :=
  { company := e.company, role := e.role, start_date := e.startDate
    end_date := e.endDate, description := e.description, type := e.type
    skills_used := String.intercalate "," e.skillsUsed }

/-- The `INSERT INTO projects ...` row built from a submitted project. -/
def projectRow (p : Project) : ProjectRow :=
  { name := p.name, type := p.type, description := p.description
    tech_stack := String.intercalate "," p.techStack
    image := p.image.getD "" }

/-- The `INSERT INTO education ...` row built from a submitted entry. -/
def educationRow (e : EducationEntry) : EducationRow :=
  { institution := e.institution, degree := e.degree, year := e.year }

/-- The `INSERT INTO certifications ...` row built from a submitted entry. -/
def certificationRow (c : Certification) : CertificationRow :=
  { name := c.name, issuer := c.issuer, date := c.date }

/-- JS truthiness of an optional string field (`if (updates.name) ...`). -/
def truthyString (o : Option String) : Bool :=
  match o with
  | some s => s ≠ ""
  | none => false

/-- JS truthiness of an optional number field
(`if (updates.profileStrength) ...`). -/
def truthyInt (o : Option ℤ) : Bool :=
  match o with
  | some n => n ≠ 0
  | none => false

/-- Apply a string field of the PUT body under JS truthiness: the stored
value is replaced only when the update holds a non-empty string. -/
def applyTruthyString (current : String) (update : Option String) : String :=
  match update with
  | some s => if s = "" then current else s
  | none => current

/-- Apply the `profileStrength` field: replaced only when nonzero. -/
def applyTruthyInt (current : ℤ) (update : Option ℤ) : ℤ :=
  match update with
  | some n => if n = 0 then current else n
  | none => current

/-- Whether the route assembles a non-empty `userFields` object (so that the
`UPDATE users SET ...` query runs at all). -/
def hasBaseFields (upd : ProfileUpdates) : Bool :=
  truthyString upd.name || truthyString upd.role || truthyString upd.bio
  || truthyString upd.location || truthyString upd.targetRole
  || truthyString upd.avatarUrl || upd.openToOpportunities.isSome
  || truthyInt upd.profileStrength

/-- Effect of the `UPDATE users SET ...` query on the user row:

    if (updates.name) userFields.name = updates.name;
    ... (same for role, bio, location, targetRole, avatarUrl)
    if (updates.openToOpportunities !== undefined) userFields.open_to_opportunities = ...;
    if (updates.profileStrength) userFields.profile_strength = ...;
-/
def applyBaseFields (u : BackendUser) (upd : ProfileUpdates) : BackendUser :=
  { u with
    name := applyTruthyString u.name upd.name
    role := applyTruthyString u.role upd.role
    bio := applyTruthyString u.bio upd.bio
    location := applyTruthyString u.location upd.location
    target_role := applyTruthyString u.target_role upd.targetRole
    avatar_url := applyTruthyString u.avatar_url upd.avatarUrl
    open_to_opportunities := upd.openToOpportunities.getD u.open_to_opportunities
    profile_strength := applyTruthyInt u.profile_strength upd.profileStrength }

/-- Replace-all effect of the skills block when `updates.skills` is present
(a submitted array, even empty, is truthy). -/
def applySkillsUpdate (u : BackendUser) (upd : ProfileUpdates) : BackendUser :=
  match upd.skills with
  | some l => { u with skills := l.map skillRow }
  | none => u

/-- Replace-all effect of the experience block. -/
def applyExperienceUpdate (u : BackendUser) (upd : ProfileUpdates) : BackendUser :=
  match upd.experience with
  | some l => { u with experience := l.map experienceRow }
  | none => u

/-- Replace-all effect of the projects block. -/
def applyProjectsUpdate (u : BackendUser) (upd : ProfileUpdates) : BackendUser :=
  match upd.projects with
  | some l => { u with projects := l.map projectRow }
  | none => u

/-- Replace-all effect of the education block. -/
def applyEducationUpdate (u : BackendUser) (upd : ProfileUpdates) : BackendUser :=
  match upd.education with
  | some l => { u with education := l.map educationRow }
  | none => u

/-- Replace-all effect of the certifications block. -/
def applyCertificationsUpdate (u : BackendUser) (upd : ProfileUpdates) : BackendUser :=
  match upd.certifications with
  | some l => { u with certifications := l.map certificationRow }
  | none => u

/-- Net effect of the whole PUT route on the addressed user when every query
succeeds, in program order: the base-row update, then delete-and-reinsert of
each submitted sub-collection. -/
def applyPutUpdates (u : BackendUser) (upd : ProfileUpdates) : BackendUser :=
  applyCertificationsUpdate
    (applyEducationUpdate
      (applyProjectsUpdate
        (applyExperienceUpdate
          (applySkillsUpdate (applyBaseFields u upd) upd) upd) upd) upd) upd

/-! ### The query sequence of the PUT route

Each element is the per-user effect of one SQL statement issued inside the
transaction, in program order: the conditional base `UPDATE`, then for each
submitted sub-collection one `DELETE` followed by one `INSERT` per element. -/

/-- The conditional `UPDATE users SET ...` query. -/
def baseQueries (upd : ProfileUpdates) : List (BackendUser → BackendUser) :=
  if hasBaseFields upd then [fun u => applyBaseFields u upd] else []

/-- The `DELETE FROM skills` then one `INSERT` per submitted skill. -/
def skillsQueries (upd : ProfileUpdates) : List (BackendUser → BackendUser) :=
  match upd.skills with
  | some l =>
    (fun u => { u with skills := [] })
      :: l.map (fun s => fun u => { u with skills := u.skills ++ [skillRow s] })
  | none => []

/-- The `DELETE FROM experience` then one `INSERT` per submitted entry. -/
def experienceQueries (upd : ProfileUpdates) : List (BackendUser → BackendUser) :=
  match upd.experience with
  | some l =>
    (fun u => { u with experience := [] })
      :: l.map (fun e => fun u => { u with experience := u.experience ++ [experienceRow e] })
  | none => []

/-- The `DELETE FROM projects` then one `INSERT` per submitted project. -/
def projectsQueries (upd : ProfileUpdates) : List (BackendUser → BackendUser) :=
  match upd.projects with
  | some l =>
    (fun u => { u with projects := [] })
      :: l.map (fun p => fun u => { u with projects := u.projects ++ [projectRow p] })
  | none => []

/-- The `DELETE FROM education` then one `INSERT` per submitted entry. -/
def educationQueries (upd : ProfileUpdates) : List (BackendUser → BackendUser) :=
  match upd.education with
  | some l =>
    (fun u => { u with education := [] })
      :: l.map (fun e => fun u => { u with education := u.education ++ [educationRow e] })
  | none => []

/-- The `DELETE FROM certifications` then one `INSERT` per submitted entry. -/
def certificationsQueries (upd : ProfileUpdates) : List (BackendUser → BackendUser) :=
  match upd.certifications with
  | some l =>
    (fun u => { u with certifications := [] })
      :: l.map (fun c => fun u => { u with certifications := u.certifications ++ [certificationRow c] })
  | none => []

/-- All mutation queries of one PUT request, in program order. -/
def putUserQueries (upd : ProfileUpdates) : List (BackendUser → BackendUser) :=
  baseQueries upd ++ skillsQueries upd ++ experienceQueries upd
    ++ projectsQueries upd ++ educationQueries upd ++ certificationsQueries upd

/-- The users store. -/
abbrev DbState := List BackendUser

/-- One SQL statement scoped `WHERE user_id = ?` / `WHERE id = ?`, as a
whole-store effect. -/
def updRowByEmail (email : String) (f : BackendUser → BackendUser) (db : DbState) : DbState :=
  db.map (fun u => if u.email = email then f u else u)

/-- A pooled connection inside a transaction: `committed` is the durable
store, `working` the uncommitted view the statements act on.  `COMMIT`
publishes the working view; `ROLLBACK` discards it. -/
structure Conn where
  committed : DbState
  working : DbState
deriving DecidableEq, Repr

/-- Run one statement on the connection (mutates only the working view). -/
def execQuery (c : Conn) (q : DbState → DbState) : Conn :=
  { c with working := q c.working }

/-- JS `connection.commit()`. -/
def commitConn (c : Conn) : Conn :=
  { c with committed := c.working }

/-- JS `connection.rollback()`. -/
def rollbackConn (c : Conn) : Conn :=
  { c with working := c.committed }

/-- Run the statements in order; `failAt = some k` makes the k-th statement
throw (network or SQL error), aborting the sequence there.  Returns the
success flag and the connection as the `try` block leaves it. -/
def execAll : Conn → List (DbState → DbState) → Option ℕ → Bool × Conn
  | c, [], _ => (true, c)
  | c, _ :: _, some 0 => (false, c)
  | c, q :: qs, some (k + 1) => execAll (execQuery c q) qs (some k)
  | c, q :: qs, none => execAll (execQuery c q) qs none

inductive PutResponse where
  | updated
  | serverError
deriving DecidableEq, Repr

/-- The PUT route handler: begin a transaction, look the user up (a missing
user throws), run the mutation statements, commit on success; any thrown
error lands in the catch block, which rolls back and answers 500.  Returns
the response and the durable store afterwards. -/
def runPut (db : DbState) (email : String) (upd : ProfileUpdates)
    (failAt : Option ℕ) : PutResponse × DbState :=
  let conn : Conn := { committed := db, working := db }
  if (db.find? (fun u => u.email = email)).isSome then
    let r := execAll conn ((putUserQueries upd).map (updRowByEmail email)) failAt
    if r.1 then (PutResponse.updated, (commitConn r.2).committed)
    else (PutResponse.serverError, (rollbackConn r.2).committed)
  else (PutResponse.serverError, (rollbackConn conn).committed)

/-! ## Mock backend over `localStorage` (`services/api.ts`)

Stored users are raw JavaScript objects (`{ ...profile, password }`), so they
are modelled as JSON values: association lists of named fields. -/

inductive Json where
  | null
  | bool (b : Bool)
  | num (q : ℚ)
  | str (s : String)
  | arr (elements : List Json)
  | obj (fields : List (String × Json))

/-- A JavaScript object: named fields in insertion order. -/
abbrev JsObject := List (String × Json)

/-- Property read `o[k]` (`undefined` is `none`). -/
def lookupField (o : JsObject) (k : String) : Option Json :=
  (o.find? (fun p => p.1 = k)).map (fun p => p.2)

/-- Rest-destructuring away one key:
`const { password, ...profile } = user` keeps every field but `password`. -/
def removeField (o : JsObject) (k : String) : JsObject :=
  o.filter (fun p => p.1 ≠ k)

/-- Object spread `{ ...base, ...upd }`: the fields of `base` in order, each
overridden by `upd` when present there, followed by the fields of `upd` that
are new. -/
def jsSpreadMerge (base upd : JsObject) : JsObject :=
  base.map (fun p => (p.1, (lookupField upd p.1).getD p.2))
    ++ upd.filter (fun p => (lookupField base p.1).isNone)

/-- String-valued field comparison (`u.email === email`). -/
def fieldEqString (o : JsObject) (k : String) (v : String) : Bool :=
  match lookupField o k with
  | some (Json.str s) => s = v
  | _ => false

/-! # Theorems -/

/-! ## Claim C1 -/

/-- Claim C1, counterexamples: the empty duration string yields 0, not the
claimed 1-hour fallback (`if (!duration) return 0`), and a non-numeric
string with a leading number (here `3 weeks`, which matches neither unit
pattern and is not purely numeric) yields its leading number, not the
claimed fallback 1, because `parseFloat` accepts a numeric prefix. -/
theorem parseDuration_claim_counterexample :
    parseDuration "" = 0 ∧ ¬ parseDuration "" = 1
      ∧ parseDuration "3 weeks" = 3 ∧ ¬ parseDuration "3 weeks" = 1 := by
  have h0 : parseDuration "" = 0 := by
    simp +decide [parseDuration]
  have h3 : parseDuration "3 weeks" = 3 := by
    simp +decide [parseDuration, jsTrim, findNumUnit, matchNumUnitAt, jsParseFloat,
      decimalVal, digitsVal, jsLowerChar, jsWhitespace]
  refine ⟨h0, ?_, h3, ?_⟩
  · rw [h0]; norm_num
  · rw [h3]; norm_num

/-- Claim C1 (amended): the parser agrees everywhere with the spec rule
amended in two points — the empty string yields 0 (not 1), and a string
that matches neither unit pattern counts its parseable leading number as
hours (not only purely numeric strings) — and the spec examples evaluate as
claimed except that the empty string yields 0. -/
theorem parseDuration_spec (s : String) :
    parseDuration s = specParseDuration s
      ∧ parseDuration "2 hours" = 2 ∧ parseDuration "90 mins" = 3 / 2
      ∧ parseDuration "1h 30m" = 3 / 2 ∧ parseDuration "5" = 5
      ∧ parseDuration "" = 0 := by
  refine ⟨?_, ?_, ?_, ?_, ?_, ?_⟩
  · by_cases hs : s = ""
    · simp [parseDuration, specParseDuration, hs]
    · simp only [parseDuration, specParseDuration, if_neg hs]
      cases h1 : findNumUnit 'h' (jsTrim (s.data.map jsLowerChar)) <;>
        cases h2 : findNumUnit 'm' (jsTrim (s.data.map jsLowerChar)) <;>
          cases h3 : jsParseFloat (jsTrim (s.data.map jsLowerChar)) <;>
            simp [h1, h2, h3]
  · simp +decide [parseDuration, jsTrim, findNumUnit, matchNumUnitAt, jsParseFloat,
      decimalVal, digitsVal, jsLowerChar, jsWhitespace]
  · simp +decide [parseDuration, jsTrim, findNumUnit, matchNumUnitAt, jsParseFloat,
      decimalVal, digitsVal, jsLowerChar, jsWhitespace]
    norm_num
  · simp +decide [parseDuration, jsTrim, findNumUnit, matchNumUnitAt, jsParseFloat,
      decimalVal, digitsVal, jsLowerChar, jsWhitespace]
    norm_num
  · simp +decide [parseDuration, jsTrim, findNumUnit, matchNumUnitAt, jsParseFloat,
      decimalVal, digitsVal, jsLowerChar, jsWhitespace]
  · simp +decide [parseDuration]

/-! ## Claim C2 -/

/-- A stored task in status In Progress (admitted by the `Task` type of
`types.ts` and by the spec data model). -/
def inProgressTaskEx : Task :=
  { id := "1", title := "Review design doc", type := TaskType.Practice
    duration := "1h", status := TaskStatus.InProgress
    difficulty := Difficulty.Easy, description := "" }

/-- Claim C2, counterexample: toggling a task whose status is In Progress
twice does not restore its status — the first toggle sets Done, the second
Todo — so double-toggle is not the identity on every task list, and a
single toggle performs the transition In Progress to Done, which is not a
move between Todo and Done. -/
theorem toggleTaskStatus_claim_counterexample :
    toggleTaskStatus (toggleTaskStatus [inProgressTaskEx] "1") "1" ≠ [inProgressTaskEx]
      ∧ (toggleTaskStatus [inProgressTaskEx] "1").map Task.status = [TaskStatus.Done]
      ∧ (toggleTaskStatus (toggleTaskStatus [inProgressTaskEx] "1") "1").map Task.status
          = [TaskStatus.Todo] := by
  refine ⟨?_, ?_, ?_⟩ <;> decide

/-- Claim C2 (amended): toggling twice restores every task except a matching
task whose status was In Progress, which ends at Todo; in particular
double-toggle is the identity on lists whose tasks are all in Todo or Done.
After a single toggle every matching task is in Todo or Done, and
non-matching tasks are unchanged. -/
theorem toggleTaskStatus_twice (tasks : List Task) (taskId : String) :
    toggleTaskStatus (toggleTaskStatus tasks taskId) taskId
        = tasks.map (fun t =>
            if t.id = taskId ∧ t.status = TaskStatus.InProgress
            then { t with status := TaskStatus.Todo } else t)
      ∧ (∀ t ∈ toggleTaskStatus tasks taskId, t.id = taskId →
          t.status = TaskStatus.Todo ∨ t.status = TaskStatus.Done)
      ∧ (∀ t ∈ tasks, t.id ≠ taskId →
          t ∈ toggleTaskStatus tasks taskId) := by
  refine ⟨?_, ?_, ?_⟩
  · simp only [toggleTaskStatus, List.map_map]
    apply List.map_congr_left
    intro t _
    rcases t with ⟨tid, ttitle, ttype, tdur, tst, tdiff, tdesc⟩
    by_cases hid : tid = taskId <;> cases tst <;> simp [Function.comp, hid]
  · intro t ht hid
    simp only [toggleTaskStatus, List.mem_map] at ht
    obtain ⟨t0, _, rfl⟩ := ht
    by_cases hid0 : t0.id = taskId
    · cases hst : t0.status <;> simp [hid0, hst]
    · simp only [if_neg hid0] at hid
      exact absurd hid hid0
  · intro t ht hid
    simp only [toggleTaskStatus, List.mem_map]
    exact ⟨t, ht, by simp [hid]⟩

/-- A matching Todo task and a non-matching In Progress task. -/
def todoTaskEx : Task :=
  { id := "7", title := "Read chapter", type := TaskType.Reading
    duration := "30 mins", status := TaskStatus.Todo
    difficulty := Difficulty.Medium, description := "" }

/-- Witness for `toggleTaskStatus_twice` at a concrete two-task list. -/
theorem toggleTaskStatus_twice_witness :
    toggleTaskStatus (toggleTaskStatus [todoTaskEx, inProgressTaskEx] "7") "7"
        = [todoTaskEx, inProgressTaskEx]
      ∧ (TaskStatus.Done = TaskStatus.Todo ∨ TaskStatus.Done = TaskStatus.Done)
      ∧ inProgressTaskEx ∈ toggleTaskStatus [todoTaskEx, inProgressTaskEx] "7" := by
  have h := toggleTaskStatus_twice [todoTaskEx, inProgressTaskEx] "7"
  refine ⟨?_, ?_, ?_⟩
  · rw [h.1]; decide
  · have hd := h.2.1 { todoTaskEx with status := TaskStatus.Done } (by decide) (by decide)
    exact hd
  · exact h.2.2 inProgressTaskEx (by decide) (by decide)

/-! ## Claims C3 and C4 -/

/-- Reduction of `Except` bind on a success value (do-notation helper). -/
theorem ok_bind {ε α β : Type} (a : α) (f : α → Except ε β) :
    (Except.ok a >>= f : Except ε β) = f a := rfl

theorem collectActiveItems_ok (roadmap : List RoadmapPhaseR)
    (h : ∀ p ∈ roadmap, p.items ≠ none) :
    collectActiveItems roadmap = Except.ok (collectedEntries roadmap) := by
  induction roadmap with
  | nil => simp [collectActiveItems, collectedEntries]
  | cons p ps ih =>
    have hp : p.items ≠ none := h p (List.mem_cons_self p ps)
    obtain ⟨its, hits⟩ := Option.ne_none_iff_exists'.mp hp
    have hguard : p.status = RStatus.InProgress ∨ p.status = RStatus.Locked
        ∨ p.status = RStatus.Completed := by
      cases p.status <;> simp
    have ihh := ih (fun q hq => h q (List.mem_cons_of_mem p hq))
    simp [collectActiveItems, hguard, hits, ihh, collectedEntries, ok_bind]

/-- The pure meaning of the reconciliation on a roadmap whose phases all
carry items: the code pipeline with the `Except` layer stripped. -/
def codeActionsPure (roadmap : List RoadmapPhaseR) : List ActionItem :=
  let allItems := collectedEntries roadmap
  let allItems :=
    if allItems.isEmpty ∧ roadmap ≠ [] then
      match roadmap with
      | [] => allItems
      | p0 :: _ => firstPhaseEntries p0
    else allItems
  let actions := (allItems.take 3).enum.map (fun e => mkActionItem e.1 e.2)
  if actions.isEmpty then actions ++ [foundationFallback] else actions

theorem fetchData_ok_of_items (roadmap : List RoadmapPhaseR)
    (h : ∀ p ∈ roadmap, p.items ≠ none) :
    fetchDataRecommendedActions roadmap = Except.ok (codeActionsPure roadmap) := by
  have hc := collectActiveItems_ok roadmap h
  cases roadmap with
  | nil =>
    simp [fetchDataRecommendedActions, codeActionsPure, collectActiveItems,
      collectedEntries, ok_bind]
  | cons p0 ps =>
    obtain ⟨its0, hits0⟩ :=
      Option.ne_none_iff_exists'.mp (h p0 (List.mem_cons_self p0 ps))
    simp only [fetchDataRecommendedActions, codeActionsPure, hc, ok_bind, hits0,
      firstPhaseEntries]
    split
    · simp [hits0, ok_bind]
    · simp [ok_bind]

theorem codeActionsPure_eq_spec (roadmap : List RoadmapPhaseR) :
    codeActionsPure roadmap = specRecommendedActions roadmap := by
  cases roadmap with
  | nil =>
    simp [codeActionsPure, specRecommendedActions, collectedEntries]
  | cons p0 ps =>
    by_cases hempty : (collectedEntries (p0 :: ps)).isEmpty
    · simp only [codeActionsPure, specRecommendedActions, hempty]
      split <;> split <;> simp_all [List.isEmpty_iff]
    · simp only [codeActionsPure, specRecommendedActions, hempty]
      split <;> split <;> simp_all [List.isEmpty_iff]

/-- Shared core of claims C3 and C4: on any roadmap whose phases all carry an
`items` array, the reconciliation succeeds and returns exactly the amended
reference algorithm. -/
theorem fetchData_eq_spec_aux (roadmap : List RoadmapPhaseR)
    (h : ∀ p ∈ roadmap, p.items ≠ none) :
    fetchDataRecommendedActions roadmap = Except.ok (specRecommendedActions roadmap) := by
  rw [fetchData_ok_of_items roadmap h, codeActionsPure_eq_spec roadmap]

/-- Final stage of the reference algorithm: at most 3 actions, never the
empty list. -/
theorem finalize_bound (l : List FlatEntry) :
    (if ((l.take 3).enum.map (fun e => mkActionItem e.1 e.2)).isEmpty
      then [foundationFallback]
      else (l.take 3).enum.map (fun e => mkActionItem e.1 e.2)).length ≤ 3
    ∧ (if ((l.take 3).enum.map (fun e => mkActionItem e.1 e.2)).isEmpty
      then [foundationFallback]
      else (l.take 3).enum.map (fun e => mkActionItem e.1 e.2)) ≠ [] := by
  cases h : ((l.take 3).enum.map (fun e => mkActionItem e.1 e.2)).isEmpty
  · constructor
    · simp only [h, if_neg Bool.false_ne_true, List.length_map, List.enum_length]
      simp
    · simp only [h, if_neg Bool.false_ne_true]
      intro hnil
      rw [hnil] at h
      simp at h
  · simp [h]

/-- The amended reference algorithm always emits between 1 and 3 actions. -/
theorem specRecommendedActions_length (roadmap : List RoadmapPhaseR) :
    (specRecommendedActions roadmap).length ≤ 3
      ∧ specRecommendedActions roadmap ≠ [] := by
  simp only [specRecommendedActions]
  exact finalize_bound _

/-- A one-phase roadmap whose phase carries an empty `items` array. -/
def emptyItemsRoadmapEx : List RoadmapPhaseR :=
  [{ id := "p1", title := "Foundation", status := RStatus.InProgress
     duration := "2 Weeks", items := some [] }]

/-- Claim C3, counterexample: on a roadmap with one phase and zero items the
code emits the foundation fallback action, while the algorithm exactly as
the claim words it (fallback action only for zero phases) yields the empty
list, so the claimed equality fails at this input. -/
theorem fetchData_claim_counterexample :
    fetchDataRecommendedActions emptyItemsRoadmapEx = Except.ok [foundationFallback]
      ∧ claimRecommendedActions emptyItemsRoadmapEx = []
      ∧ ¬ fetchDataRecommendedActions emptyItemsRoadmapEx
            = Except.ok (claimRecommendedActions emptyItemsRoadmapEx) := by
  have h1 : fetchDataRecommendedActions emptyItemsRoadmapEx
      = Except.ok [foundationFallback] := rfl
  have h2 : claimRecommendedActions emptyItemsRoadmapEx = [] := rfl
  refine ⟨h1, h2, ?_⟩
  intro hcontra
  rw [h1, h2] at hcontra
  exact List.cons_ne_nil foundationFallback [] (Except.ok.inj hcontra)

/-- Claim C3 (amended): on every roadmap whose phases carry an `items` array,
the reconciliation succeeds with exactly the reference algorithm, amended in
one point: the single fallback action is produced whenever the final
collection is empty (for example a first phase with zero items), not only
when the roadmap has zero phases. -/
theorem fetchData_matches_spec (roadmap : List RoadmapPhaseR)
    (h : ∀ p ∈ roadmap, p.items ≠ none) :
    fetchDataRecommendedActions roadmap = Except.ok (specRecommendedActions roadmap) :=
  fetchData_eq_spec_aux roadmap h

/-- The spec test scenario: phase 1 Completed with only Completed items,
phase 2 In Progress with 4 non-completed items. -/
def demoRoadmapEx : List RoadmapPhaseR :=
  [{ id := "1", title := "Foundations", status := RStatus.Completed
     duration := "4 Weeks"
     items := some
       [{ title := "Learn SQL basics", status := RStatus.Completed, subtitle := none },
        { title := "Data modeling", status := RStatus.Completed, subtitle := some "1 Week" }] },
   { id := "2", title := "Core Tech", status := RStatus.InProgress
     duration := "6 Weeks"
     items := some
       [{ title := "Build a dashboard project", status := RStatus.InProgress
          subtitle := some "2 Weeks" },
        { title := "Advanced SQL course", status := RStatus.Locked, subtitle := none },
        { title := "Mock interview practice", status := RStatus.Locked
          subtitle := some "1 Week" },
        { title := "System design reading", status := RStatus.Locked, subtitle := none }] }]

/-- Witness for `fetchData_matches_spec` on the spec test scenario: 3 actions
drawn from phase 2 in order, the first tagged High Impact, with the type
classification and subtitle-or-phase-duration labels. -/
theorem fetchData_matches_spec_witness :
    (∀ p ∈ demoRoadmapEx, p.items ≠ none)
      ∧ fetchDataRecommendedActions demoRoadmapEx
          = Except.ok (specRecommendedActions demoRoadmapEx)
      ∧ specRecommendedActions demoRoadmapEx =
          [{ id := 0, title := "Build a dashboard project", duration := "2 Weeks"
             tag := "High Impact", type := "project" },
           { id := 1, title := "Advanced SQL course", duration := "6 Weeks"
             tag := "", type := "course" },
           { id := 2, title := "Mock interview practice", duration := "1 Week"
             tag := "", type := "mentor" }] :=
  ⟨by decide, fetchData_matches_spec demoRoadmapEx (by decide), by decide⟩

/-- A phase whose `items` field is absent. -/
def missingItemsRoadmapEx : List RoadmapPhaseR :=
  [{ id := "p1", title := "Foundation", status := RStatus.InProgress
     duration := "2 Weeks", items := none }]

/-- Claim C4, counterexample: when a phase has no `items` field the
reconciliation throws (`phase.items.forEach` on `undefined`) instead of
treating the absent field as empty, so it is not tolerant of this malformed
shape. -/
theorem fetchData_missing_items_counterexample :
    fetchDataRecommendedActions missingItemsRoadmapEx = Except.error "TypeError" := rfl

/-- Claim C4 (amended): the reconciliation tolerates absent `subtitle`
fields, but an absent `items` field makes it throw; on every roadmap whose
phases all carry an `items` array it does not throw and its output has at
most 3 action records. -/
theorem fetchData_safe (roadmap : List RoadmapPhaseR)
    (h : ∀ p ∈ roadmap, p.items ≠ none) :
    ∃ actions, fetchDataRecommendedActions roadmap = Except.ok actions
      ∧ actions.length ≤ 3 := by
  exact ⟨specRecommendedActions roadmap, fetchData_eq_spec_aux roadmap h,
    (specRecommendedActions_length roadmap).1⟩

/-- A roadmap exercising absent subtitles under claim C4. -/
def noSubtitleRoadmapEx : List RoadmapPhaseR :=
  [{ id := "1", title := "Phase A", status := RStatus.Locked, duration := "3 Weeks"
     items := some
       [{ title := "Item one", status := RStatus.Locked, subtitle := none },
        { title := "Item two", status := RStatus.InProgress, subtitle := none }] }]

/-- Witness for `fetchData_safe` at a roadmap whose items have no
subtitles. -/
theorem fetchData_safe_witness :
    (∀ p ∈ noSubtitleRoadmapEx, p.items ≠ none)
      ∧ ∃ actions, fetchDataRecommendedActions noSubtitleRoadmapEx = Except.ok actions
          ∧ actions.length ≤ 3 :=
  ⟨by decide, fetchData_safe noSubtitleRoadmapEx (by decide)⟩

/-! ## Claim C5 -/

theorem identityPoints_eq (a b c d e : String) :
    10 * (([a, b, c, d, e].filter (fun s => s.length > 2)).length)
      = (if a.length > 2 then 10 else 0) + (if b.length > 2 then 10 else 0)
        + (if c.length > 2 then 10 else 0) + (if d.length > 2 then 10 else 0)
        + (if e.length > 2 then 10 else 0) := by
  by_cases h1 : a.length > 2 <;> by_cases h2 : b.length > 2 <;>
    by_cases h3 : c.length > 2 <;> by_cases h4 : d.length > 2 <;>
      by_cases h5 : e.length > 2 <;>
        simp [List.filter_cons, h1, h2, h3, h4, h5]

theorem avatarPoints_eq (s : String) :
    (if s ≠ "" ∧ s.length > 50 then (10 : ℕ) else 0)
      = if s.length > 50 then 10 else 0 := by
  by_cases h : s.length > 50
  · have hne : s ≠ "" := by
      intro e
      rw [e] at h
      simp at h
    simp [h, hne]
  · simp [h]

theorem skillPoints_eq (n : ℕ) :
    (if n ≥ 3 then (15 : ℕ) else if n > 0 then 5 else 0)
      = if n ≥ 3 then 15 else if 1 ≤ n ∧ n ≤ 2 then 5 else 0 := by
  by_cases h3 : n ≥ 3
  · simp [h3]
  · rw [if_neg h3, if_neg h3]
    by_cases h0 : n > 0
    · rw [if_pos h0, if_pos ⟨h0, by omega⟩]
    · rw [if_neg h0, if_neg (by omega)]

theorem profileStrength_eq_aux (u : UserProfile) :
    calculateProfileStrength u = specProfileStrength u := by
  unfold calculateProfileStrength specProfileStrength
  rw [identityPoints_eq, avatarPoints_eq, skillPoints_eq]

/-- Claim C5: the profile-strength score is the claimed fixed-weight sum
clamped to 100; the fully empty profile scores 0 and a fully populated one
(all identity fields over 2 characters, avatar over 50 characters, 3 or
more skills, experience, education and a project) scores exactly 100. -/
theorem calculateProfileStrength_spec (u : UserProfile) :
    calculateProfileStrength u = specProfileStrength u
      ∧ calculateProfileStrength emptyProfile = 0
      ∧ calculateProfileStrength fullProfile = 100 :=
  ⟨profileStrength_eq_aux u, by decide, by decide⟩

/-! ## Claim C6 -/

/-- JS `Math.round` of an integer value is that integer. -/
theorem jsRound_intCast (z : ℤ) : jsRound (z : ℚ) = z := by
  unfold jsRound
  rw [add_comm, Int.floor_add_int]
  norm_num

/-- Claim C6: for every month difference derived from the join date, every
integer score S in [0, 100] and every outcome of the jitter source, the
series has clamp(monthsDiff + 1, 3, 12) points, starts at exactly 10, ends
at exactly S, gives jitter only to interior points, and every point is
rounded and clamped to at least 0. -/
theorem generateTrendChart_spec (monthsDiff : ℤ) (S : ℤ) (jitter : ℕ → ℚ)
    (hS0 : 0 ≤ S) (_hS100 : S ≤ 100) :
    ((generateTrendChart monthsDiff (S : ℚ) jitter).length : ℤ)
        = max 3 (min 12 (monthsDiff + 1))
      ∧ (generateTrendChart monthsDiff (S : ℚ) jitter)[(0 : ℕ)]? = some 10
      ∧ (generateTrendChart monthsDiff (S : ℚ) jitter)[
          (max 3 (min 12 (monthsDiff + 1))).toNat - 1]? = some S
      ∧ (∀ i : ℕ, 0 < i → i + 1 < (max 3 (min 12 (monthsDiff + 1))).toNat →
          (generateTrendChart monthsDiff (S : ℚ) jitter)[i]?
            = some (max 0 (jsRound (10 + ((S : ℚ) - 10)
                * (i / (((max 3 (min 12 (monthsDiff + 1))).toNat : ℚ) - 1)) + jitter i))))
      ∧ (∀ x ∈ generateTrendChart monthsDiff (S : ℚ) jitter, 0 ≤ x) := by
  have hmax : (3 : ℤ) ≤ max 3 (min 12 (monthsDiff + 1)) := le_max_left _ _
  have h3n : 3 ≤ (max 3 (min 12 (monthsDiff + 1))).toNat := by omega
  have hne : (((max 3 (min 12 (monthsDiff + 1))).toNat : ℚ) - 1) ≠ 0 := by
    have h : (3 : ℚ) ≤ (((max 3 (min 12 (monthsDiff + 1))).toNat : ℕ) : ℚ) := by
      exact_mod_cast h3n
    intro hcontra
    nlinarith
  refine ⟨?_, ?_, ?_, ?_, ?_⟩
  · simp only [generateTrendChart, List.length_map, List.length_range]
    omega
  · have h0 : (0 : ℕ) < (max 3 (min 12 (monthsDiff + 1))).toNat := by omega
    simp only [generateTrendChart, List.getElem?_map, List.getElem?_range h0,
      Option.map_some, Option.map_some']
    norm_num
    rw [show (10 : ℚ) = ((10 : ℤ) : ℚ) by norm_num, jsRound_intCast]
    decide
  · have hlt : (max 3 (min 12 (monthsDiff + 1))).toNat - 1
        < (max 3 (min 12 (monthsDiff + 1))).toNat := by omega
    simp only [generateTrendChart, List.getElem?_map, List.getElem?_range hlt,
      Option.map_some, Option.map_some']
    have hguard : ¬((max 3 (min 12 (monthsDiff + 1))).toNat - 1
        < (max 3 (min 12 (monthsDiff + 1))).toNat - 1
        ∧ 0 < (max 3 (min 12 (monthsDiff + 1))).toNat - 1) := by omega
    rw [if_neg hguard]
    have hcast : (((max 3 (min 12 (monthsDiff + 1))).toNat - 1 : ℕ) : ℚ)
        = (((max 3 (min 12 (monthsDiff + 1))).toNat : ℕ) : ℚ) - 1 := by
      have h1 : (1 : ℕ) ≤ (max 3 (min 12 (monthsDiff + 1))).toNat := by omega
      push_cast [h1]
      ring
    rw [hcast, div_self hne, mul_one,
      show (10 : ℚ) + ((S : ℚ) - 10) = ((S : ℤ) : ℚ) by ring,
      jsRound_intCast, max_eq_right hS0]
  · intro i h0i hin
    have hlt : i < (max 3 (min 12 (monthsDiff + 1))).toNat := by omega
    simp only [generateTrendChart, List.getElem?_map, List.getElem?_range hlt,
      Option.map_some, Option.map_some']
    have hguard : i < (max 3 (min 12 (monthsDiff + 1))).toNat - 1 ∧ 0 < i := by omega
    rw [if_pos hguard]
  · intro x hx
    simp only [generateTrendChart, List.mem_map] at hx
    obtain ⟨i, _, rfl⟩ := hx
    exact le_max_left 0 _

/-- Witness for `generateTrendChart_spec`: five elapsed months, score 85,
constant jitter 2. -/
theorem generateTrendChart_spec_witness :
    (0 : ℤ) ≤ (85 : ℤ) ∧ (85 : ℤ) ≤ 100
      ∧ (((generateTrendChart 5 ((85 : ℤ) : ℚ) (fun _ => 2)).length : ℤ)
            = max 3 (min 12 (5 + 1))
          ∧ (generateTrendChart 5 ((85 : ℤ) : ℚ) (fun _ => 2))[(0 : ℕ)]? = some 10
          ∧ (generateTrendChart 5 ((85 : ℤ) : ℚ) (fun _ => 2))[
              (max 3 (min 12 ((5 : ℤ) + 1))).toNat - 1]? = some 85
          ∧ (∀ i : ℕ, 0 < i → i + 1 < (max 3 (min 12 ((5 : ℤ) + 1))).toNat →
              (generateTrendChart 5 ((85 : ℤ) : ℚ) (fun _ => 2))[i]?
                = some (max 0 (jsRound (10 + (((85 : ℤ) : ℚ) - 10)
                    * (i / (((max 3 (min 12 ((5 : ℤ) + 1))).toNat : ℚ) - 1)) + 2))))
          ∧ (∀ x ∈ generateTrendChart 5 ((85 : ℤ) : ℚ) (fun _ => 2), 0 ≤ x)) :=
  ⟨by norm_num, by norm_num,
    generateTrendChart_spec 5 85 (fun _ => 2) (by norm_num) (by norm_num)⟩

/-! ## Claim C7 -/

theorem find?_eq_filter_head? {α : Type} (p : α → Bool) (l : List α) :
    l.find? p = (l.filter p).head? := by
  induction l with
  | nil => rfl
  | cons a t ih =>
    cases h : p a with
    | true => rw [List.find?_cons_of_pos _ h, List.filter_cons_of_pos h]; rfl
    | false =>
      rw [List.find?_cons_of_neg _ (by simp [h]), List.filter_cons_of_neg (by simp [h])]
      exact ih

/-- A string of length zero is the empty string. -/
theorem eq_empty_of_length_zero (s : String) (h : s.length = 0) : s = "" := by
  cases s with
  | mk data =>
    cases data with
    | nil => rfl
    | cons a t => simp [String.length] at h

/-- A non-empty string prefix keeps an append non-empty. -/
theorem append_ne_empty_left (s t : String) (h : s ≠ "") : s ++ t ≠ "" := by
  intro he
  have hlen := congrArg String.length he
  rw [String.length_append] at hlen
  rw [show ("" : String).length = 0 from rfl] at hlen
  exact h (eq_empty_of_length_zero s (by omega))

/-- Rules 2 and 3 never produce the empty string. -/
theorem focusFromAnalysis_ne_empty (ac : CacheEntry CachedAnalysis) :
    focusFromAnalysis ac ≠ "" := by
  cases ac with
  | parsed analysis =>
    cases hg : analysis.criticalGaps with
    | nil => simp [focusFromAnalysis, hg]
    | cons g gs =>
      simp only [focusFromAnalysis, hg]
      exact append_ne_empty_left _ _ (by decide)
  | absent => simp [focusFromAnalysis]
  | unparseable => simp [focusFromAnalysis]

/-- A cached roadmap with one In Progress phase whose title is the empty
string (nothing constrains titles of AI-produced cached roadmaps). -/
def emptyTitleCacheEx : CacheEntry (List CachedPhase) :=
  CacheEntry.parsed [{ title := "", status := "In Progress" }]

/-- Claim C7, counterexample: rule 1 returns the In Progress phase title
verbatim, so a cached phase with an empty title makes the resolver return
the empty string, refuting the claim that the result is always a non-empty
string. -/
theorem getSmartFocusArea_claim_counterexample :
    getSmartFocusArea emptyTitleCacheEx CacheEntry.absent = "" := rfl

/-- Claim C7 (amended): the resolver implements exactly the claimed priority
chain (first In Progress phase title, else Closing Skill Gap of the first
critical gap, else the fixed fallback, with absent or unparseable entries as
cache misses), never throws (it is a total function), and its result is
non-empty provided every In Progress phase of a parsed cached roadmap has a
non-empty title (the second and third rules always produce non-empty
strings). -/
theorem getSmartFocusArea_spec (rc : CacheEntry (List CachedPhase))
    (ac : CacheEntry CachedAnalysis) :
    getSmartFocusArea rc ac = specFocusArea rc ac
      ∧ ((∀ roadmap, rc = CacheEntry.parsed roadmap →
            ∀ p ∈ roadmap, p.status = "In Progress" → p.title ≠ "") →
          getSmartFocusArea rc ac ≠ "") := by
  constructor
  · cases rc with
    | parsed roadmap =>
      simp only [getSmartFocusArea, specFocusArea,
        find?_eq_filter_head? (fun p => p.status = "In Progress") roadmap]
      cases ((roadmap.filter (fun p => p.status = "In Progress")).head?) with
      | some activePhase => rfl
      | none =>
        cases ac with
        | parsed analysis => cases analysis.criticalGaps <;> rfl
        | absent => rfl
        | unparseable => rfl
    | absent =>
      cases ac with
      | parsed analysis => cases analysis.criticalGaps <;> rfl
      | absent => rfl
      | unparseable => rfl
    | unparseable =>
      cases ac with
      | parsed analysis => cases analysis.criticalGaps <;> rfl
      | absent => rfl
      | unparseable => rfl
  · intro htitles
    cases rc with
    | parsed roadmap =>
      simp only [getSmartFocusArea]
      cases hf : roadmap.find? (fun p => p.status = "In Progress") with
      | some activePhase =>
        have hmem := List.mem_of_find?_eq_some hf
        have hstat : activePhase.status = "In Progress" := by
          have := List.find?_some hf
          simpa using this
        exact htitles roadmap rfl activePhase hmem hstat
      | none => exact focusFromAnalysis_ne_empty ac
    | absent => exact focusFromAnalysis_ne_empty ac
    | unparseable => exact focusFromAnalysis_ne_empty ac

/-- The cached roadmap of the spec scenario: an In Progress phase titled
Core Tech. -/
def coreTechCacheEx : CacheEntry (List CachedPhase) :=
  CacheEntry.parsed
    [{ title := "Foundations", status := "Completed" },
     { title := "Core Tech", status := "In Progress" }]

/-- A cached analysis whose first critical gap is System Design. -/
def systemDesignAnalysisEx : CacheEntry CachedAnalysis :=
  CacheEntry.parsed { criticalGaps := [{ name := "System Design" }] }

/-- Witness for `getSmartFocusArea_spec`: with a cached In Progress phase
titled Core Tech the resolver answers Core Tech even though a cached
analysis is present, and the answer is non-empty. -/
theorem getSmartFocusArea_spec_witness :
    getSmartFocusArea coreTechCacheEx systemDesignAnalysisEx
        = specFocusArea coreTechCacheEx systemDesignAnalysisEx
      ∧ getSmartFocusArea coreTechCacheEx systemDesignAnalysisEx ≠ ""
      ∧ getSmartFocusArea coreTechCacheEx systemDesignAnalysisEx = "Core Tech"
      ∧ getSmartFocusArea CacheEntry.absent systemDesignAnalysisEx
          = "Closing Skill Gap: System Design"
      ∧ getSmartFocusArea CacheEntry.absent CacheEntry.absent
          = "Core Competencies & Growth" :=
  ⟨(getSmartFocusArea_spec coreTechCacheEx systemDesignAnalysisEx).1,
    (getSmartFocusArea_spec coreTechCacheEx systemDesignAnalysisEx).2 (by
      intro roadmap hr
      simp only [coreTechCacheEx] at hr
      injection hr with h
      subst h
      decide),
    by decide, by decide, by decide⟩

/-! ## Claim C8 -/

/-- Property lookup on a non-empty object: the head field shadows the
tail. -/
theorem lookupField_cons (p : String × Json) (rest : JsObject) (k : String) :
    lookupField (p :: rest) k = if p.1 = k then some p.2 else lookupField rest k := by
  by_cases hk : p.1 = k
  · rw [if_pos hk]
    unfold lookupField
    rw [List.find?_cons_of_pos _ (by simp [hk])]
    rfl
  · rw [if_neg hk]
    unfold lookupField
    rw [List.find?_cons_of_neg _ (by simp [hk])]

theorem lookupField_append (a b : JsObject) (k : String) :
    lookupField (a ++ b) k
      = match lookupField a k with
        | some v => some v
        | none => lookupField b k := by
  induction a with
  | nil => simp [lookupField]
  | cons p rest ih =>
    by_cases hk : p.1 = k <;> simp [lookupField_cons, hk, ih]

theorem lookupField_map_subst (base upd : JsObject) (k : String) :
    lookupField (base.map (fun p => (p.1, (lookupField upd p.1).getD p.2))) k
      = (lookupField base k).map (fun v => (lookupField upd k).getD v) := by
  induction base with
  | nil => simp [lookupField]
  | cons p rest ih =>
    by_cases hk : p.1 = k
    · subst hk
      simp [lookupField_cons]
    · simp [lookupField_cons, hk, ih]

theorem lookupField_filter_new (base upd : JsObject) (k : String) :
    lookupField (upd.filter (fun p => (lookupField base p.1).isNone)) k
      = if (lookupField base k).isNone then lookupField upd k else none := by
  induction upd with
  | nil => simp [lookupField]
  | cons p rest ih =>
    by_cases hk : p.1 = k
    · subst hk
      cases hb : (lookupField base p.1).isNone <;>
        simp [List.filter_cons, hb, lookupField_cons, ih]
    · cases hb : (lookupField base p.1).isNone <;>
        simp [List.filter_cons, hb, lookupField_cons, hk, ih]

/-- JS object-spread field semantics: in `{ ...base, ...upd }` a key present
in `upd` reads its `upd` value and any other key reads its `base` value. -/
theorem jsSpreadMerge_lookup (base upd : JsObject) (k : String) :
    lookupField (jsSpreadMerge base upd) k
      = match lookupField upd k with
        | some v => some v
        | none => lookupField base k := by
  unfold jsSpreadMerge
  rw [lookupField_append, lookupField_map_subst, lookupField_filter_new]
  cases hb : lookupField base k <;> cases hu : lookupField upd k <;> simp [hb, hu]

/-- A stored backend user. -/
def aliceUser : BackendUser :=
  { email := "alice@example.com", password := "password"
    name := "Alice", role := "Designer", bio := "Designs things."
    location := "San Francisco", target_role := "Staff Designer"
    avatar_url := "", open_to_opportunities := true, profile_strength := 85
    skills := [{ name := "Figma", category := "Tools", level := "Expert", verified := true }]
    experience := [], projects := [], education := [], certifications := [] }

/-- A request that tries to clear `name` (present, empty string) and zero
out `profileStrength` (present, 0). -/
def clearingUpdates : ProfileUpdates :=
  { ProfileUpdates.empty with name := some "", profileStrength := some 0 }

/-- Claim C8, counterexample: the SQL backend guards every scalar field with
JS truthiness (`if (updates.name)`), so a present-but-falsy field is NOT
applied: sending `name` as the empty string or `profileStrength` as 0
leaves the stored values untouched, contradicting — applies exactly the
top-level fields present in the update. -/
theorem backendUpdate_claim_counterexample :
    clearingUpdates.name = some ""
      ∧ (applyPutUpdates aliceUser clearingUpdates).name = "Alice"
      ∧ (applyPutUpdates aliceUser clearingUpdates).name ≠ ""
      ∧ clearingUpdates.profileStrength = some 0
      ∧ (applyPutUpdates aliceUser clearingUpdates).profile_strength = 85 := by
  refine ⟨rfl, rfl, ?_, rfl, rfl⟩
  decide

theorem applySkillsUpdate_eq (u : BackendUser) (upd : ProfileUpdates) :
    applySkillsUpdate u upd
      = { u with skills := (upd.skills.map (List.map skillRow)).getD u.skills } := by
  unfold applySkillsUpdate
  cases upd.skills <;> rfl

theorem applyExperienceUpdate_eq (u : BackendUser) (upd : ProfileUpdates) :
    applyExperienceUpdate u upd
      = { u with experience := (upd.experience.map (List.map experienceRow)).getD u.experience } := by
  unfold applyExperienceUpdate
  cases upd.experience <;> rfl

theorem applyProjectsUpdate_eq (u : BackendUser) (upd : ProfileUpdates) :
    applyProjectsUpdate u upd
      = { u with projects := (upd.projects.map (List.map projectRow)).getD u.projects } := by
  unfold applyProjectsUpdate
  cases upd.projects <;> rfl

theorem applyEducationUpdate_eq (u : BackendUser) (upd : ProfileUpdates) :
    applyEducationUpdate u upd
      = { u with education := (upd.education.map (List.map educationRow)).getD u.education } := by
  unfold applyEducationUpdate
  cases upd.education <;> rfl

theorem applyCertificationsUpdate_eq (u : BackendUser) (upd : ProfileUpdates) :
    applyCertificationsUpdate u upd
      = { u with certifications :=
            (upd.certifications.map (List.map certificationRow)).getD u.certifications } := by
  unfold applyCertificationsUpdate
  cases upd.certifications <;> rfl

/-- The whole PUT effect as one flat record update. -/
theorem applyPutUpdates_eq (u : BackendUser) (upd : ProfileUpdates) :
    applyPutUpdates u upd
      = { u with
          name := applyTruthyString u.name upd.name
          role := applyTruthyString u.role upd.role
          bio := applyTruthyString u.bio upd.bio
          location := applyTruthyString u.location upd.location
          target_role := applyTruthyString u.target_role upd.targetRole
          avatar_url := applyTruthyString u.avatar_url upd.avatarUrl
          open_to_opportunities := upd.openToOpportunities.getD u.open_to_opportunities
          profile_strength := applyTruthyInt u.profile_strength upd.profileStrength
          skills := (upd.skills.map (List.map skillRow)).getD u.skills
          experience := (upd.experience.map (List.map experienceRow)).getD u.experience
          projects := (upd.projects.map (List.map projectRow)).getD u.projects
          education := (upd.education.map (List.map educationRow)).getD u.education
          certifications :=
            (upd.certifications.map (List.map certificationRow)).getD u.certifications } := by
  unfold applyPutUpdates
  rw [applySkillsUpdate_eq, applyExperienceUpdate_eq, applyProjectsUpdate_eq,
    applyEducationUpdate_eq, applyCertificationsUpdate_eq]
  rfl

/-- Claim C8 (amended): the mock backend merge applies exactly the fields
present in the update (present sub-collections included, wholesale) and
leaves omitted fields untouched; the SQL backend wholesale-replaces each
present sub-collection and leaves every omitted field untouched, but applies
a present scalar field only when its value is truthy (non-empty string,
nonzero number; `openToOpportunities` whenever present). -/
theorem profileUpdate_spec (u : BackendUser) (upd : ProfileUpdates) :
    (∀ stored updates : JsObject, ∀ k : String,
        lookupField (jsSpreadMerge stored updates) k
          = match lookupField updates k with
            | some v => some v
            | none => lookupField stored k)
      ∧ (upd = ProfileUpdates.empty → applyPutUpdates u upd = u)
      ∧ (applyPutUpdates u upd).email = u.email
      ∧ (applyPutUpdates u upd).password = u.password
      ∧ (∀ s, upd.name = some s →
          (applyPutUpdates u upd).name = if s = "" then u.name else s)
      ∧ (upd.name = none → (applyPutUpdates u upd).name = u.name)
      ∧ (∀ b, upd.openToOpportunities = some b →
          (applyPutUpdates u upd).open_to_opportunities = b)
      ∧ (∀ n, upd.profileStrength = some n →
          (applyPutUpdates u upd).profile_strength = if n = 0 then u.profile_strength else n)
      ∧ (∀ l, upd.skills = some l → (applyPutUpdates u upd).skills = l.map skillRow)
      ∧ (upd.skills = none → (applyPutUpdates u upd).skills = u.skills)
      ∧ (∀ l, upd.experience = some l →
          (applyPutUpdates u upd).experience = l.map experienceRow)
      ∧ (∀ l, upd.projects = some l →
          (applyPutUpdates u upd).projects = l.map projectRow)
      ∧ (∀ l, upd.education = some l →
          (applyPutUpdates u upd).education = l.map educationRow)
      ∧ (∀ l, upd.certifications = some l →
          (applyPutUpdates u upd).certifications = l.map certificationRow) := by
  refine ⟨jsSpreadMerge_lookup, ?_, ?_, ?_, ?_, ?_, ?_, ?_, ?_, ?_, ?_, ?_, ?_, ?_⟩
  · intro he
    subst he
    rfl
  · rw [applyPutUpdates_eq]
  · rw [applyPutUpdates_eq]
  · intro s hs
    rw [applyPutUpdates_eq]
    simp [applyTruthyString, hs]
  · intro hn
    rw [applyPutUpdates_eq]
    simp [applyTruthyString, hn]
  · intro b hb
    rw [applyPutUpdates_eq]
    simp [hb]
  · intro n hn
    rw [applyPutUpdates_eq]
    simp [applyTruthyInt, hn]
  · intro l hl
    rw [applyPutUpdates_eq]
    simp [hl]
  · intro hl
    rw [applyPutUpdates_eq]
    simp [hl]
  · intro l hl
    rw [applyPutUpdates_eq]
    simp [hl]
  · intro l hl
    rw [applyPutUpdates_eq]
    simp [hl]
  · intro l hl
    rw [applyPutUpdates_eq]
    simp [hl]
  · intro l hl
    rw [applyPutUpdates_eq]
    simp [hl]

/-- A stored mock-backend user object (fields beside `password` elided to a
representative sample). -/
def aliceObjEx : JsObject :=
  [("name", Json.str "Alice"), ("email", Json.str "alice@example.com"),
   ("password", Json.str "password"), ("skills", Json.arr [])]

/-- A partial-update object for the mock backend. -/
def updObjEx : JsObject :=
  [("bio", Json.str "Hello"), ("skills", Json.arr [Json.str "Figma"])]

/-- A rich PUT body: a truthy `name` and a submitted skills collection. -/
def richUpdates : ProfileUpdates :=
  { ProfileUpdates.empty with
    name := some "Alicia"
    skills := some [{ name := "Figma", category := "Tools", level := "Expert"
                      verified := some true }] }

/-- Witness for `profileUpdate_spec` at concrete stores and updates. -/
theorem profileUpdate_spec_witness :
    lookupField (jsSpreadMerge aliceObjEx updObjEx) "bio"
        = (match lookupField updObjEx "bio" with
            | some v => some v
            | none => lookupField aliceObjEx "bio")
      ∧ applyPutUpdates aliceUser ProfileUpdates.empty = aliceUser
      ∧ (applyPutUpdates aliceUser richUpdates).name
          = (if ("Alicia" : String) = "" then aliceUser.name else "Alicia")
      ∧ (applyPutUpdates aliceUser richUpdates).skills
          = ([{ name := "Figma", category := "Tools", level := "Expert"
                verified := some true }] : List Skill).map skillRow :=
  ⟨(profileUpdate_spec aliceUser ProfileUpdates.empty).1 aliceObjEx updObjEx "bio",
   (profileUpdate_spec aliceUser ProfileUpdates.empty).2.1 rfl,
   (profileUpdate_spec aliceUser richUpdates).2.2.2.2.1 "Alicia" rfl,
   (profileUpdate_spec aliceUser richUpdates).2.2.2.2.2.2.2.2.1 _ rfl⟩

/-! ## Claim C9 -/

/-- Statements never touch the committed store. -/
theorem execAll_committed (qs : List (DbState → DbState)) (c : Conn) (failAt : Option ℕ) :
    (execAll c qs failAt).2.committed = c.committed := by
  induction qs generalizing c failAt with
  | nil => rfl
  | cons q rest ih =>
    match failAt with
    | none => exact ih _ _
    | some 0 => rfl
    | some (k + 1) => exact ih _ _

/-- When the statement sequence reports success, the working view is the
fold of all statements. -/
theorem execAll_success (qs : List (DbState → DbState)) (c : Conn) (failAt : Option ℕ)
    (h : (execAll c qs failAt).1 = true) :
    (execAll c qs failAt).2.working = qs.foldl (fun s q => q s) c.working := by
  induction qs generalizing c failAt with
  | nil => rfl
  | cons q rest ih =>
    match failAt with
    | none => exact ih _ _ h
    | some 0 => exact absurd h (by simp [execAll])
    | some (k + 1) => exact ih _ _ h

/-- A whole-store statement targeting one user commutes with the map view:
folding per-user effects inside `updRowByEmail` equals folding them on each
matching user, provided no effect changes the email key. -/
theorem foldl_updRowByEmail (email : String) (fs : List (BackendUser → BackendUser))
    (hpres : ∀ f ∈ fs, ∀ u, (f u).email = u.email) (db : DbState) :
    (fs.map (updRowByEmail email)).foldl (fun s q => q s) db
      = db.map (fun u => if u.email = email then fs.foldl (fun v f => f v) u else u) := by
  induction fs generalizing db with
  | nil => simp [List.map_id]
  | cons f rest ih =>
    have hf := hpres f (List.mem_cons_self f rest)
    have hrest : ∀ g ∈ rest, ∀ u, (g u).email = u.email :=
      fun g hg => hpres g (List.mem_cons_of_mem f hg)
    simp only [List.map_cons, List.foldl_cons]
    rw [ih hrest (updRowByEmail email f db)]
    unfold updRowByEmail
    rw [List.map_map]
    apply List.map_congr_left
    intro u _
    by_cases hu : u.email = email
    · simp [Function.comp, hu, hf u]
    · simp [Function.comp, hu]

/-- No PUT statement changes the email key of a user row. -/
theorem putUserQueries_preserve_email (upd : ProfileUpdates) :
    ∀ f ∈ putUserQueries upd, ∀ u, (f u).email = u.email := by
  intro f hf u
  simp only [putUserQueries, List.mem_append] at hf
  rcases hf with ((((hb | hs) | he) | hp) | hd) | hc
  · unfold baseQueries at hb
    split at hb
    · rcases List.mem_singleton.mp hb with rfl
      rfl
    · exact absurd hb (List.not_mem_nil f)
  · unfold skillsQueries at hs
    split at hs
    · rcases List.mem_cons.mp hs with rfl | hs2
      · rfl
      · obtain ⟨s, _, rfl⟩ := List.mem_map.mp hs2
        rfl
    · exact absurd hs (List.not_mem_nil f)
  · unfold experienceQueries at he
    split at he
    · rcases List.mem_cons.mp he with rfl | he2
      · rfl
      · obtain ⟨e, _, rfl⟩ := List.mem_map.mp he2
        rfl
    · exact absurd he (List.not_mem_nil f)
  · unfold projectsQueries at hp
    split at hp
    · rcases List.mem_cons.mp hp with rfl | hp2
      · rfl
      · obtain ⟨p, _, rfl⟩ := List.mem_map.mp hp2
        rfl
    · exact absurd hp (List.not_mem_nil f)
  · unfold educationQueries at hd
    split at hd
    · rcases List.mem_cons.mp hd with rfl | hd2
      · rfl
      · obtain ⟨e, _, rfl⟩ := List.mem_map.mp hd2
        rfl
    · exact absurd hd (List.not_mem_nil f)
  · unfold certificationsQueries at hc
    split at hc
    · rcases List.mem_cons.mp hc with rfl | hc2
      · rfl
      · obtain ⟨c, _, rfl⟩ := List.mem_map.mp hc2
        rfl
    · exact absurd hc (List.not_mem_nil f)

theorem foldl_skillsQueries (upd : ProfileUpdates) (u : BackendUser) :
    (skillsQueries upd).foldl (fun v f => f v) u = applySkillsUpdate u upd := by
  unfold skillsQueries applySkillsUpdate
  cases hs : upd.skills with
  | none => rfl
  | some l =>
    simp only [List.foldl_cons]
    suffices hgen : ∀ (l : List Skill) (acc : List SkillRow),
        (l.map (fun s => fun u => { u with skills := u.skills ++ [skillRow s] })).foldl
            (fun v f => f v) { u with skills := acc }
          = { u with skills := acc ++ l.map skillRow } by
      have h := hgen l []
      simpa using h
    intro l
    induction l with
    | nil => intro acc; simp
    | cons s rest ih =>
      intro acc
      simp only [List.map_cons, List.foldl_cons]
      have := ih (acc ++ [skillRow s])
      simpa using this

theorem foldl_experienceQueries (upd : ProfileUpdates) (u : BackendUser) :
    (experienceQueries upd).foldl (fun v f => f v) u = applyExperienceUpdate u upd := by
  unfold experienceQueries applyExperienceUpdate
  cases he : upd.experience with
  | none => rfl
  | some l =>
    simp only [List.foldl_cons]
    suffices hgen : ∀ (l : List WorkExperience) (acc : List ExperienceRow),
        (l.map (fun e => fun u => { u with experience := u.experience ++ [experienceRow e] })).foldl
            (fun v f => f v) { u with experience := acc }
          = { u with experience := acc ++ l.map experienceRow } by
      have h := hgen l []
      simpa using h
    intro l
    induction l with
    | nil => intro acc; simp
    | cons e rest ih =>
      intro acc
      simp only [List.map_cons, List.foldl_cons]
      have := ih (acc ++ [experienceRow e])
      simpa using this

theorem foldl_projectsQueries (upd : ProfileUpdates) (u : BackendUser) :
    (projectsQueries upd).foldl (fun v f => f v) u = applyProjectsUpdate u upd := by
  unfold projectsQueries applyProjectsUpdate
  cases hp : upd.projects with
  | none => rfl
  | some l =>
    simp only [List.foldl_cons]
    suffices hgen : ∀ (l : List Project) (acc : List ProjectRow),
        (l.map (fun p => fun u => { u with projects := u.projects ++ [projectRow p] })).foldl
            (fun v f => f v) { u with projects := acc }
          = { u with projects := acc ++ l.map projectRow } by
      have h := hgen l []
      simpa using h
    intro l
    induction l with
    | nil => intro acc; simp
    | cons p rest ih =>
      intro acc
      simp only [List.map_cons, List.foldl_cons]
      have := ih (acc ++ [projectRow p])
      simpa using this

theorem foldl_educationQueries (upd : ProfileUpdates) (u : BackendUser) :
    (educationQueries upd).foldl (fun v f => f v) u = applyEducationUpdate u upd := by
  unfold educationQueries applyEducationUpdate
  cases hd : upd.education with
  | none => rfl
  | some l =>
    simp only [List.foldl_cons]
    suffices hgen : ∀ (l : List EducationEntry) (acc : List EducationRow),
        (l.map (fun e => fun u => { u with education := u.education ++ [educationRow e] })).foldl
            (fun v f => f v) { u with education := acc }
          = { u with education := acc ++ l.map educationRow } by
      have h := hgen l []
      simpa using h
    intro l
    induction l with
    | nil => intro acc; simp
    | cons e rest ih =>
      intro acc
      simp only [List.map_cons, List.foldl_cons]
      have := ih (acc ++ [educationRow e])
      simpa using this

theorem foldl_certificationsQueries (upd : ProfileUpdates) (u : BackendUser) :
    (certificationsQueries upd).foldl (fun v f => f v) u = applyCertificationsUpdate u upd := by
  unfold certificationsQueries applyCertificationsUpdate
  cases hc : upd.certifications with
  | none => rfl
  | some l =>
    simp only [List.foldl_cons]
    suffices hgen : ∀ (l : List Certification) (acc : List CertificationRow),
        (l.map (fun c => fun u => { u with certifications := u.certifications ++ [certificationRow c] })).foldl
            (fun v f => f v) { u with certifications := acc }
          = { u with certifications := acc ++ l.map certificationRow } by
      have h := hgen l []
      simpa using h
    intro l
    induction l with
    | nil => intro acc; simp
    | cons c rest ih =>
      intro acc
      simp only [List.map_cons, List.foldl_cons]
      have := ih (acc ++ [certificationRow c])
      simpa using this

theorem applyTruthyString_of_falsy (c : String) (o : Option String)
    (h : truthyString o = false) : applyTruthyString c o = c := by
  cases o with
  | none => rfl
  | some s =>
    simp only [truthyString, decide_eq_false_iff_not, ne_eq, not_not] at h
    simp [applyTruthyString, h]

theorem applyTruthyInt_of_falsy (c : ℤ) (o : Option ℤ)
    (h : truthyInt o = false) : applyTruthyInt c o = c := by
  cases o with
  | none => rfl
  | some n =>
    simp only [truthyInt, decide_eq_false_iff_not, ne_eq, not_not] at h
    simp [applyTruthyInt, h]

theorem foldl_baseQueries (upd : ProfileUpdates) (u : BackendUser) :
    (baseQueries upd).foldl (fun v f => f v) u = applyBaseFields u upd := by
  unfold baseQueries
  cases hb : hasBaseFields upd
  · simp only [Bool.false_eq_true, if_neg, List.foldl_nil]
    simp only [hasBaseFields, Bool.or_eq_false_iff] at hb
    obtain ⟨⟨⟨⟨⟨⟨⟨h1, h2⟩, h3⟩, h4⟩, h5⟩, h6⟩, h7⟩, h8⟩ := hb
    have hopp : upd.openToOpportunities = none := Option.not_isSome_iff_eq_none.mp (by simp [h7])
    unfold applyBaseFields
    rw [applyTruthyString_of_falsy _ _ h1, applyTruthyString_of_falsy _ _ h2,
      applyTruthyString_of_falsy _ _ h3, applyTruthyString_of_falsy _ _ h4,
      applyTruthyString_of_falsy _ _ h5, applyTruthyString_of_falsy _ _ h6,
      applyTruthyInt_of_falsy _ _ h8, hopp]
    rfl
  · rfl

/-- One full PUT statement sequence on a single user equals the direct
functional update. -/
theorem foldl_putUserQueries (upd : ProfileUpdates) (u : BackendUser) :
    (putUserQueries upd).foldl (fun v f => f v) u = applyPutUpdates u upd := by
  unfold putUserQueries applyPutUpdates
  rw [List.foldl_append, List.foldl_append, List.foldl_append, List.foldl_append,
    List.foldl_append]
  rw [foldl_baseQueries, foldl_skillsQueries, foldl_experienceQueries,
    foldl_projectsQueries, foldl_educationQueries, foldl_certificationsQueries]

/-- Claim C9: each PUT request is atomic — either it succeeds and the
durable store holds every table change of the request (base-row update plus
delete-and-reinsert of each submitted sub-collection, applied to exactly the
addressed user), or some statement failed (or the user was missing), a 500
error is answered, and the durable store is exactly as before. -/
theorem runPut_atomic (db : DbState) (email : String) (upd : ProfileUpdates)
    (failAt : Option ℕ) :
    ((runPut db email upd failAt).1 = PutResponse.updated
        ∧ (runPut db email upd failAt).2
            = db.map (fun u => if u.email = email then applyPutUpdates u upd else u))
      ∨ ((runPut db email upd failAt).1 = PutResponse.serverError
          ∧ (runPut db email upd failAt).2 = db) := by
  unfold runPut
  cases hfound : (db.find? (fun u => u.email = email)).isSome
  · right
    simp [hfound, rollbackConn]
  · have hcommitted :=
      execAll_committed ((putUserQueries upd).map (updRowByEmail email)) ⟨db, db⟩ failAt
    cases hr : (execAll ⟨db, db⟩ ((putUserQueries upd).map (updRowByEmail email)) failAt).1
    · right
      constructor
      · simp [hfound, hr]
      · simp only [hfound, if_true, hr, Bool.false_eq_true, if_neg]
        exact hcommitted
    · left
      have hw := execAll_success ((putUserQueries upd).map (updRowByEmail email))
        ⟨db, db⟩ failAt hr
      constructor
      · simp [hfound, hr]
      · simp only [hfound, if_true, hr, if_pos]
        show (execAll ⟨db, db⟩ ((putUserQueries upd).map (updRowByEmail email)) failAt).2.working = _
        rw [hw]
        rw [foldl_updRowByEmail email (putUserQueries upd)
          (putUserQueries_preserve_email upd) db]
        apply List.map_congr_left
        intro u _
        by_cases hu : u.email = email
        · simp [hu, foldl_putUserQueries]
        · simp [hu]

/-! ## Claim C10 -/

/-- Modelled from the spec: `DEFAULT_AVATAR` is imported from
`utils/constants`, a file not among the sources; only the presence of the
`avatarUrl` field matters to the claims, never its value. -/
def DEFAULT_AVATAR : String := "default-avatar"

/-- Object `DEFAULT_USER_DATA` of `services/api.ts` as a JSON object.  It carries no
`password` field; the seeding of the users store adds one via
`{ ...DEFAULT_USER_DATA, password: ... }`. -/
def defaultUserData : JsObject :=
  [("name", Json.str "Alex Mercer"),
   ("role", Json.str "Senior Product Designer"),
   ("location", Json.str "San Francisco, CA"),
   ("avatarUrl", Json.str DEFAULT_AVATAR),
   ("bio", Json.str "Passionate Senior Product Designer with over 7 years of experience building accessible, user-centric digital products. I specialize in design systems, prototyping, and user research."),
   ("email", Json.str "alex@example.com"),
   ("phone", Json.str "+1 (555) 012-3456"),
   ("joinedDate", Json.str "March 2023"),
   ("openToOpportunities", Json.bool true),
   ("targetRole", Json.str "Staff Product Designer"),
   ("targetIndustry", Json.str "SaaS / FinTech"),
   ("timelineGoal", Json.str "6 Months"),
   ("readinessScore", Json.num 85),
   ("profileStrength", Json.num 85),
   ("level", Json.str "Senior"),
   ("resumeLastUpdated", Json.str "Oct 24, 2023"),
   ("insights", Json.arr
     [Json.obj [("type", Json.str "Success"),
                ("message", Json.str "Strong experience description in \"TechFlow\".")],
      Json.obj [("type", Json.str "Warning"),
                ("message", Json.str "Consider adding metric outcomes to your project \"EcoTrack\".")]]),
   ("skills", Json.arr
     [Json.obj [("name", Json.str "UI Design"), ("category", Json.str "Domain"),
                ("level", Json.str "Expert"), ("verified", Json.bool true),
                ("source", Json.str "Resume"), ("confidence", Json.num 95)],
      Json.obj [("name", Json.str "Figma"), ("category", Json.str "Tools"),
                ("level", Json.str "Expert"), ("verified", Json.bool true),
                ("source", Json.str "Project"), ("confidence", Json.num 98)],
      Json.obj [("name", Json.str "Prototyping"), ("category", Json.str "Domain"),
                ("level", Json.str "Expert"), ("verified", Json.bool true),
                ("source", Json.str "Resume"), ("confidence", Json.num 90)],
      Json.obj [("name", Json.str "React"), ("category", Json.str "Technical"),
                ("level", Json.str "Intermediate"), ("verified", Json.bool false),
                ("source", Json.str "Task"), ("confidence", Json.num 65)]]),
   ("experience", Json.arr
     [Json.obj [("id", Json.str "1"), ("company", Json.str "TechFlow Inc."),
                ("role", Json.str "Senior Product Designer"),
                ("startDate", Json.str "2021"), ("endDate", Json.str "Present"),
                ("type", Json.str "Full-time"),
                ("description", Json.str "Spearheaded the redesign of the core SaaS platform."),
                ("skillsUsed", Json.arr [Json.str "Figma", Json.str "React"]),
                ("impactMetrics", Json.arr [Json.str "25% increase in user retention"])]]),
   ("education", Json.arr
     [Json.obj [("id", Json.str "1"),
                ("institution", Json.str "California College of the Arts"),
                ("degree", Json.str "BA Interaction Design"),
                ("year", Json.str "2014 - 2018")]]),
   ("certifications", Json.arr
     [Json.obj [("id", Json.str "1"), ("name", Json.str "Google UX Design"),
                ("issuer", Json.str "Google"), ("date", Json.str "Jan 2023")]]),
   ("projects", Json.arr
     [Json.obj [("id", Json.str "1"), ("name", Json.str "FinTech Dashboard"),
                ("type", Json.str "Professional"),
                ("description", Json.str "Financial analytics tool."),
                ("techStack", Json.arr [Json.str "Figma", Json.str "React"]),
                ("image", Json.str "https://picsum.photos/seed/fintech/400/200")]]),
   ("preferences", Json.obj
     [("weeklyHours", Json.num 15), ("learningStyle", Json.str "Visual"),
      ("remotePreference", Json.str "Hybrid"),
      ("targetLocations", Json.arr [Json.str "San Francisco"]),
      ("salaryRange", Json.str "$180k+"), ("availability", Json.str "3-6 Months"),
      ("companySize", Json.str "Scale-up")])]

/-- Method `MockBackend.login`:

    const user = users.find(u => u.email === email && u.password === password);
    if (user) { const { password, ...profile } = user; return profile; }
    throw new Error(...);

`none` models the thrown invalid-credentials error. -/
def mockLogin (db : List JsObject) (email pw : String) : Option JsObject :=
  (db.find? (fun u => fieldEqString u "email" email && fieldEqString u "password" pw)).map
    (fun user => removeField user "password")

/-- Method `MockBackend.getUser(email?)`: a found user is returned without its
`password` field; otherwise `DEFAULT_USER_DATA`. -/
def mockGetUser (db : List JsObject) (email : Option String) : JsObject :=
  match email with
  | some e =>
    if e = "" then defaultUserData
    else
      match db.find? (fun u => fieldEqString u "email" e) with
      | some user => removeField user "password"
      | none => defaultUserData
  | none => defaultUserData

/-- Method `MockBackend.updateUser`: spread-merge the updates over the stored user,
write the merged object (password included) back to the store, and return it
without the `password` field; an unknown email returns
`DEFAULT_USER_DATA`. -/
def mockUpdateUser (db : List JsObject) (email : String) (updates : JsObject) :
    List JsObject × JsObject :=
  match db.findIdx? (fun u => fieldEqString u "email" email) with
  | some i =>
    let updatedUser := jsSpreadMerge (db.getD i []) updates
    (db.set i updatedUser, removeField updatedUser "password")
  | none => (db, defaultUserData)

/-- Rest-destructuring away a key leaves no trace of it. -/
theorem lookupField_removeField (o : JsObject) (k : String) :
    lookupField (removeField o k) k = none := by
  induction o with
  | nil => rfl
  | cons p rest ih =>
    by_cases hk : p.1 = k
    · simp only [removeField, List.filter_cons, hk]
      simpa [removeField] using ih
    · simp only [removeField, List.filter_cons]
      rw [if_pos (by simp [hk])]
      rw [lookupField_cons]
      rw [if_neg hk]
      simpa [removeField] using ih

theorem defaultUserData_no_password : lookupField defaultUserData "password" = none := by
  rfl

/-- Claim C10: no successful mock-backend operation ever returns an object
carrying the stored `password` field — login and a found getUser/updateUser
strip it by rest-destructuring, and the default profile never had one. -/
theorem mockBackend_no_password (db : List JsObject) (email pw : String)
    (emailOpt : Option String) (updates : JsObject) :
    (∀ profile, mockLogin db email pw = some profile →
        lookupField profile "password" = none)
      ∧ lookupField (mockGetUser db emailOpt) "password" = none
      ∧ lookupField (mockUpdateUser db email updates).2 "password" = none := by
  refine ⟨?_, ?_, ?_⟩
  · intro profile h
    unfold mockLogin at h
    obtain ⟨user, _, rfl⟩ := Option.map_eq_some'.mp h
    exact lookupField_removeField user "password"
  · cases emailOpt with
    | none => exact defaultUserData_no_password
    | some e =>
      by_cases he : e = ""
      · simp only [mockGetUser, he, if_pos]
        exact defaultUserData_no_password
      · simp only [mockGetUser]
        rw [if_neg he]
        cases db.find? (fun u => fieldEqString u "email" e) with
        | some user => exact lookupField_removeField user "password"
        | none => exact defaultUserData_no_password
  · simp only [mockUpdateUser]
    cases db.findIdx? (fun u => fieldEqString u "email" email) with
    | some i => exact lookupField_removeField _ "password"
    | none => exact defaultUserData_no_password

/-- The profile object login strips out of the stored `aliceObjEx`. -/
def aliceProfileEx : JsObject :=
  [("name", Json.str "Alice"), ("email", Json.str "alice@example.com"),
   ("skills", Json.arr [])]

/-- Witness for `mockBackend_no_password`: logging in against a one-user
store returns the stored object minus its `password` field. -/
theorem mockBackend_no_password_witness :
    mockLogin [aliceObjEx] "alice@example.com" "password" = some aliceProfileEx
      ∧ lookupField aliceProfileEx "password" = none :=
  ⟨rfl, (mockBackend_no_password [aliceObjEx] "alice@example.com" "password"
      none []).1 aliceProfileEx rfl⟩

end CareerPilot
